import Mathlib

/-!
Verification of the NOTAM decoding library (havardgulldahl/notams).

This file shallowly embeds the core pure logic of the repository:

* `Geo` — functions from `_geo.py` (DMS-token conversion, distance
  normalization);
* `ScriptsGeo` — the corresponding, slightly divergent, functions from
  `scripts/geo.py` (DMS-token conversion, distance normalization,
  coordinate-pair and coordinate-sequence parsing, polygon/sector building,
  and the clause-E geometry cascade `build_parts_from_E`);
* `NotamMod` — the record assembly of `notam.py` (`Notam.from_str`);
* `ParserMod` — the visitor logic of `_parser.py` relevant to the Q clause
  and datetime decoding.

Real numbers of the Python source (floats) are modelled as rationals; the
string operations (`strip`, `upper`, `split`, the concrete regexes of the
source, which are all deterministic on their inputs) are modelled
character-by-character on `List Char`.  External libraries (shapely, pyproj)
are not repository code: geometric values constructed through them are
represented by the arguments the repository passes to them (`GeomVal`), and
the two shapely predicates the repository consumes (`is_valid`,
`buffer(0)`) are abstracted as a `ShapelyModel` carrying the documented
shapely guarantees as fields.
-/

namespace Notams

/-- Numeric value of a digit character (Python `int` on a digit). -/
def charVal (c : Char) : ℕ := c.toNat - 48

/-- Value of a digit string, most significant digit first (Python `int`). -/
def natOfDigits (l : List Char) : ℕ := l.foldl (fun a c => 10 * a + charVal c) 0

/-- All characters are ASCII digits. -/
def allDigits (l : List Char) : Bool := l.all Char.isDigit

/-- Python `str.strip()`: drop whitespace from both ends. -/
def stripChars (l : List Char) : List Char :=
  ((l.dropWhile Char.isWhitespace).reverse.dropWhile Char.isWhitespace).reverse

/-- The digit character for `n < 10`. -/
def digitChar (n : ℕ) : Char := Char.ofNat (48 + n)

/-- Error taxonomy of the geometry helpers (`ValueError`s raised by
`_geo.py` / `scripts/geo.py`, named as in the specification). -/
inductive GeoErr
  | invalidCoordinate (token : String)
  | invalidPair (pair : String)
  | invalidDistance (text : String)
  | insufficientVertices
  | pyFloatError (text : String)
  deriving DecidableEq

/-- Success test for `Except`. -/
def exOk {ε α : Type} : Except ε α → Bool
  | .ok _ => true
  | .error _ => false

deriving instance DecidableEq for Except

namespace Geo

/-- Degrees/minutes/seconds split of `_geo.py dms_token_to_deg` (lines
38-54): length 6 → DD MM SS; length 5 → DD MM plus the final digit times 10
as seconds; length 4 → DD MM; otherwise (the regex allows only length 7
here) → DDD MM SS. -/
def dmsComponents (num : List Char) : ℕ × ℕ × ℕ :=
  if num.length = 6 then
    (natOfDigits (num.take 2), natOfDigits ((num.drop 2).take 2),
      natOfDigits ((num.drop 4).take 2))
  else if num.length = 5 then
    (natOfDigits (num.take 2), natOfDigits ((num.drop 2).take 2),
      natOfDigits ((num.drop 4).take 1) * 10)
  else if num.length = 4 then
    (natOfDigits (num.take 2), natOfDigits ((num.drop 2).take 2), 0)
  else
    (natOfDigits (num.take 3), natOfDigits ((num.drop 3).take 2),
      if 7 ≤ num.length then natOfDigits ((num.drop 5).take 2) else 0)

/-- Model of `_geo.py dms_token_to_deg` (lines 23-59): strip, match
`(\d«4,7»)([NSEW])`, split into degrees/minutes/seconds by length, convert
to signed decimal degrees (negative for S/W). -/
def dms_token_to_deg (token : String) : Except GeoErr ℚ :=
  let cs := stripChars token.data
  match cs.getLast? with
  | none => .error (.invalidCoordinate token)
  | some hemi =>
    let num := cs.dropLast
    if (hemi = 'N' ∨ hemi = 'S' ∨ hemi = 'E' ∨ hemi = 'W') ∧
        allDigits num = true ∧ 4 ≤ num.length ∧ num.length ≤ 7 then
      let c := dmsComponents num
      let deg : ℚ := (c.1 : ℚ) + (c.2.1 : ℚ) / 60 + (c.2.2 : ℚ) / 3600
      .ok (if hemi = 'S' ∨ hemi = 'W' then -deg else deg)
    else
      .error (.invalidCoordinate token)

end Geo

namespace ScriptsGeo

/-- Degrees/minutes/seconds split of `scripts/geo.py dms_token_to_deg`
(lines 38-57): length 7 → DDD MM SS; length 6 → DD MM SS; length 5 → DDD MM
(no seconds); length 4 → DD MM.  Other lengths raise in the source (dead
code behind the regex); modelled as `none`. -/
def dmsComponents (num : List Char) : Option (ℕ × ℕ × ℕ) :=
  if num.length = 7 then
    some (natOfDigits (num.take 3), natOfDigits ((num.drop 3).take 2),
      natOfDigits ((num.drop 5).take 2))
  else if num.length = 6 then
    some (natOfDigits (num.take 2), natOfDigits ((num.drop 2).take 2),
      natOfDigits ((num.drop 4).take 2))
  else if num.length = 5 then
    some (natOfDigits (num.take 3), natOfDigits ((num.drop 3).take 2), 0)
  else if num.length = 4 then
    some (natOfDigits (num.take 2), natOfDigits ((num.drop 2).take 2), 0)
  else none

/-- Model of `scripts/geo.py dms_token_to_deg` (lines 25-62). -/
def dms_token_to_deg (token : String) : Except GeoErr ℚ :=
  let cs := stripChars token.data
  match cs.getLast? with
  | none => .error (.invalidCoordinate token)
  | some hemi =>
    let num := cs.dropLast
    if (hemi = 'N' ∨ hemi = 'S' ∨ hemi = 'E' ∨ hemi = 'W') ∧
        allDigits num = true ∧ 4 ≤ num.length ∧ num.length ≤ 7 then
      match dmsComponents num with
      | some c =>
        let deg : ℚ := (c.1 : ℚ) + (c.2.1 : ℚ) / 60 + (c.2.2 : ℚ) / 3600
        .ok (if hemi = 'S' ∨ hemi = 'W' then -deg else deg)
      | none => .error (.invalidCoordinate token)
    else
      .error (.invalidCoordinate token)

end ScriptsGeo

/-- Sign factor applied by both DMS parsers: negative for S/W hemispheres. -/
def dmsSign (hemi : Char) : ℚ := if hemi = 'S' ∨ hemi = 'W' then -1 else 1

/-- A digit character is not whitespace. -/
lemma isWhitespace_eq_false_of_isDigit (c : Char) (h : c.isDigit = true) :
    c.isWhitespace = false := by
  by_contra hne
  have hw : c.isWhitespace = true := by
    cases hb : c.isWhitespace
    · exact absurd hb hne
    · rfl
  have hcs : ((c = ' ' ∨ c = '\t') ∨ c = '\r') ∨ c = '\n' := by
    simpa [Char.isWhitespace] using hw
  rcases hcs with ((rfl | rfl) | rfl) | rfl <;> exact absurd h (by decide)

/-- Helper: `dropWhile` is the identity when the head fails the test. -/
lemma dropWhile_eq_self_of_head (p : Char → Bool) (l : List Char)
    (h : ∀ c ∈ l.head?, p c = false) : l.dropWhile p = l := by
  cases l with
  | nil => rfl
  | cons a t =>
    have ha : p a = false := h a rfl
    simp [List.dropWhile_cons, ha]

/-- Helper: `stripChars` is the identity when neither end is whitespace. -/
lemma stripChars_eq_self (l : List Char)
    (h1 : ∀ c ∈ l.head?, c.isWhitespace = false)
    (h2 : ∀ c ∈ l.getLast?, c.isWhitespace = false) :
    stripChars l = l := by
  unfold stripChars
  rw [dropWhile_eq_self_of_head _ _ h1]
  rw [dropWhile_eq_self_of_head _ _ (by simpa [List.head?_reverse] using h2)]
  exact List.reverse_reverse l

/-- A hemisphere letter is not whitespace. -/
lemma hemi_not_ws (hemi : Char)
    (hh : hemi = 'N' ∨ hemi = 'S' ∨ hemi = 'E' ∨ hemi = 'W') :
    hemi.isWhitespace = false := by
  rcases hh with rfl | rfl | rfl | rfl <;> decide

/-- Evaluation of `_geo.py dms_token_to_deg` on a well-shaped token built
from a digit block and a hemisphere letter. -/
lemma geo_dms_eval (num : List Char) (hemi : Char)
    (hd : allDigits num = true) (h4 : 4 ≤ num.length) (h7 : num.length ≤ 7)
    (hh : hemi = 'N' ∨ hemi = 'S' ∨ hemi = 'E' ∨ hemi = 'W') :
    Geo.dms_token_to_deg (String.mk (num ++ [hemi])) =
      .ok (dmsSign hemi *
        ((((Geo.dmsComponents num).1 : ℚ) +
          ((Geo.dmsComponents num).2.1 : ℚ) / 60 +
          ((Geo.dmsComponents num).2.2 : ℚ) / 3600))) := by
  have hnum_ne : num ≠ [] := by
    intro h
    rw [h] at h4
    exact absurd h4 (by decide)
  have hstrip : stripChars (num ++ [hemi]) = num ++ [hemi] := by
    apply stripChars_eq_self
    · intro c hc
      cases num with
      | nil => exact absurd rfl hnum_ne
      | cons a t =>
        have hac : a = c := by simpa using hc
        have hall : ∀ x ∈ a :: t, Char.isDigit x = true :=
          List.all_eq_true.mp (by simpa [allDigits] using hd)
        rw [← hac]
        exact isWhitespace_eq_false_of_isDigit a (hall a (by simp))
    · intro c hc
      have hhc : hemi = c := by simpa [List.getLast?_concat] using hc
      rw [← hhc]
      exact hemi_not_ws hemi hh
  unfold Geo.dms_token_to_deg
  simp only [String.mk, hstrip, List.getLast?_concat, List.dropLast_concat]
  rw [if_pos ⟨hh, hd, h4, h7⟩]
  by_cases hsw : hemi = 'S' ∨ hemi = 'W'
  · simp [dmsSign, hsw]
  · simp [dmsSign, hsw]

/-- Evaluation of `scripts/geo.py dms_token_to_deg` on a well-shaped token. -/
lemma sgeo_dms_eval (num : List Char) (hemi : Char) (c : ℕ × ℕ × ℕ)
    (hd : allDigits num = true) (h4 : 4 ≤ num.length) (h7 : num.length ≤ 7)
    (hh : hemi = 'N' ∨ hemi = 'S' ∨ hemi = 'E' ∨ hemi = 'W')
    (hc : ScriptsGeo.dmsComponents num = some c) :
    ScriptsGeo.dms_token_to_deg (String.mk (num ++ [hemi])) =
      .ok (dmsSign hemi * ((c.1 : ℚ) + (c.2.1 : ℚ) / 60 + (c.2.2 : ℚ) / 3600)) := by
  have hnum_ne : num ≠ [] := by
    intro h
    rw [h] at h4
    exact absurd h4 (by decide)
  have hstrip : stripChars (num ++ [hemi]) = num ++ [hemi] := by
    apply stripChars_eq_self
    · intro x hx
      cases num with
      | nil => exact absurd rfl hnum_ne
      | cons a t =>
        have hax : a = x := by simpa using hx
        have hall : ∀ y ∈ a :: t, Char.isDigit y = true :=
          List.all_eq_true.mp (by simpa [allDigits] using hd)
        rw [← hax]
        exact isWhitespace_eq_false_of_isDigit a (hall a (by simp))
    · intro x hx
      have hhx : hemi = x := by simpa [List.getLast?_concat] using hx
      rw [← hhx]
      exact hemi_not_ws hemi hh
  unfold ScriptsGeo.dms_token_to_deg
  simp only [String.mk, hstrip, List.getLast?_concat, List.dropLast_concat]
  rw [if_pos ⟨hh, hd, h4, h7⟩, hc]
  by_cases hsw : hemi = 'S' ∨ hemi = 'W'
  · simp [dmsSign, hsw]
  · simp [dmsSign, hsw]

/-- The magnitude `D + M/60 + S/3600` is nonnegative and at most `D + 1`
when minutes and seconds are below 60. -/
lemma dms_deg_bounds (dd mm ss : ℕ) (hm : mm ≤ 59) (hs : ss ≤ 59) :
    0 ≤ (dd : ℚ) + (mm : ℚ) / 60 + (ss : ℚ) / 3600 ∧
    (dd : ℚ) + (mm : ℚ) / 60 + (ss : ℚ) / 3600 ≤ (dd : ℚ) + 1 := by
  have hmq : (mm : ℚ) ≤ 59 := by exact_mod_cast hm
  have hsq : (ss : ℚ) ≤ 59 := by exact_mod_cast hs
  have hm0 : (0 : ℚ) ≤ (mm : ℚ) := by positivity
  have hs0 : (0 : ℚ) ≤ (ss : ℚ) := by positivity
  have hd0 : (0 : ℚ) ≤ (dd : ℚ) := by positivity
  constructor
  · positivity
  · linarith

/-- Sign and range facts shared by both DMS parsers, as functions of the
already-split degree/minute/second components. -/
lemma dms_value_props (hemi : Char) (dd mm ss : ℕ) (v : ℚ)
    (hh : hemi = 'N' ∨ hemi = 'S' ∨ hemi = 'E' ∨ hemi = 'W')
    (hv : v = dmsSign hemi * ((dd : ℚ) + (mm : ℚ) / 60 + (ss : ℚ) / 3600)) :
    ((hemi = 'N' ∨ hemi = 'E') → 0 ≤ v) ∧
    ((hemi = 'S' ∨ hemi = 'W') → v ≤ 0) ∧
    (v < 0 → hemi = 'S' ∨ hemi = 'W') ∧
    (mm ≤ 59 → ss ≤ 59 →
      (dd ≤ 89 → -90 ≤ v ∧ v ≤ 90) ∧ (dd ≤ 179 → -180 ≤ v ∧ v ≤ 180)) := by
  have hdeg0 : 0 ≤ (dd : ℚ) + (mm : ℚ) / 60 + (ss : ℚ) / 3600 := by positivity
  by_cases hsw : hemi = 'S' ∨ hemi = 'W'
  · have hsign : dmsSign hemi = -1 := by simp [dmsSign, hsw]
    rw [hsign] at hv
    refine ⟨?_, ?_, fun _ => hsw, ?_⟩
    · intro hne
      rcases hne with rfl | rfl <;> rcases hsw with h' | h' <;>
        exact absurd h' (by decide)
    · intro _
      rw [hv]
      linarith
    · intro hm hs
      have hb := (dms_deg_bounds dd mm ss hm hs).2
      constructor
      · intro hdd
        have hddq : (dd : ℚ) ≤ 89 := by exact_mod_cast hdd
        rw [hv]
        constructor <;> linarith
      · intro hdd
        have hddq : (dd : ℚ) ≤ 179 := by exact_mod_cast hdd
        rw [hv]
        constructor <;> linarith
  · have hsign : dmsSign hemi = 1 := by simp [dmsSign, hsw]
    rw [hsign, one_mul] at hv
    refine ⟨fun _ => by rw [hv]; exact hdeg0, fun h => absurd h hsw, ?_, ?_⟩
    · intro hlt
      exact absurd hlt (not_lt.mpr (by rw [hv]; exact hdeg0))
    · intro hm hs
      have hb := (dms_deg_bounds dd mm ss hm hs).2
      constructor
      · intro hdd
        have hddq : (dd : ℚ) ≤ 89 := by exact_mod_cast hdd
        rw [hv]
        constructor <;> linarith
      · intro hdd
        have hddq : (dd : ℚ) ≤ 179 := by exact_mod_cast hdd
        rw [hv]
        constructor <;> linarith

/-- C6 (amended).  On a 5-digit DMS token, `_geo.py dms_token_to_deg`
returns first-two-digits degrees, next-two minutes, and the final digit
times ten as seconds (sign flipped for S/W), exactly as the claim states —
but `scripts/geo.py dms_token_to_deg` instead reads the same token as
3-digit degrees and 2-digit minutes with zero seconds. -/
theorem c6_five_digit_dms (c1 c2 c3 c4 c5 hemi : Char)
    (h1 : c1.isDigit = true) (h2 : c2.isDigit = true) (h3 : c3.isDigit = true)
    (h4 : c4.isDigit = true) (h5 : c5.isDigit = true)
    (hh : hemi = 'N' ∨ hemi = 'S' ∨ hemi = 'E' ∨ hemi = 'W') :
    Geo.dms_token_to_deg (String.mk ([c1, c2, c3, c4, c5] ++ [hemi])) =
      .ok (dmsSign hemi * ((10 * charVal c1 + charVal c2 : ℚ) +
        (10 * charVal c3 + charVal c4 : ℚ) / 60 +
        ((charVal c5 : ℚ) * 10) / 3600)) ∧
    ScriptsGeo.dms_token_to_deg (String.mk ([c1, c2, c3, c4, c5] ++ [hemi])) =
      .ok (dmsSign hemi *
        ((100 * charVal c1 + 10 * charVal c2 + charVal c3 : ℚ) +
        (10 * charVal c4 + charVal c5 : ℚ) / 60)) := by
  have hd : allDigits [c1, c2, c3, c4, c5] = true := by
    simp [allDigits, h1, h2, h3, h4, h5]
  have hgc : Geo.dmsComponents [c1, c2, c3, c4, c5] =
      (10 * charVal c1 + charVal c2, 10 * charVal c3 + charVal c4,
        charVal c5 * 10) := by
    simp [Geo.dmsComponents, natOfDigits]
    try omega
  have hsc : ScriptsGeo.dmsComponents [c1, c2, c3, c4, c5] =
      some (100 * charVal c1 + 10 * charVal c2 + charVal c3,
        10 * charVal c4 + charVal c5, 0) := by
    simp [ScriptsGeo.dmsComponents, natOfDigits]
    try omega
  constructor
  · rw [geo_dms_eval _ _ hd (by simp) (by simp) hh, hgc]
    congr 1
    push_cast
    ring
  · rw [sgeo_dms_eval _ _ _ hd (by simp) (by simp) hh hsc]
    congr 1
    push_cast
    ring

/-- C6 counterexample.  `scripts/geo.py dms_token_to_deg` maps the 5-digit
token `12345N` to `123 + 45/60 = 495/4` degrees, which differs from the
claimed `12 + 34/60 + 50/3600` (the `_geo.py` reading). -/
theorem c6_counterexample :
    ScriptsGeo.dms_token_to_deg "12345N" = Except.ok (495 / 4) ∧
    (495 / 4 : ℚ) ≠
      (10 * 1 + 2 : ℚ) + (10 * 3 + 4 : ℚ) / 60 + ((5 : ℚ) * 10) / 3600 := by
  constructor
  · have hs : ScriptsGeo.dmsComponents ['1', '2', '3', '4', '5'] =
        some (123, 45, 0) := by decide
    have h := sgeo_dms_eval ['1', '2', '3', '4', '5'] 'N' (123, 45, 0)
      (by decide) (by decide) (by decide) (Or.inl rfl) hs
    have hstr : ("12345N" : String) = String.mk (['1', '2', '3', '4', '5'] ++ ['N']) := by
      decide
    rw [hstr, h]
    have hsgn : dmsSign 'N' = 1 := by simp [dmsSign]
    rw [hsgn]
    congr 1
    norm_num
  · norm_num

/-- C6 witness: the amended theorem applied to the concrete token `12345N`. -/
theorem c6_witness :
    Geo.dms_token_to_deg (String.mk (['1', '2', '3', '4', '5'] ++ ['N'])) =
      .ok (dmsSign 'N' * ((10 * charVal '1' + charVal '2' : ℚ) +
        (10 * charVal '3' + charVal '4' : ℚ) / 60 +
        ((charVal '5' : ℚ) * 10) / 3600)) ∧
    ScriptsGeo.dms_token_to_deg (String.mk (['1', '2', '3', '4', '5'] ++ ['N'])) =
      .ok (dmsSign 'N' *
        ((100 * charVal '1' + 10 * charVal '2' + charVal '3' : ℚ) +
        (10 * charVal '4' + charVal '5' : ℚ) / 60)) :=
  c6_five_digit_dms '1' '2' '3' '4' '5' 'N' (by decide) (by decide) (by decide)
    (by decide) (by decide) (Or.inl rfl)

/-- C9 (amended).  For every syntactically valid 4-7 digit DMS token, both
parsers return a value that is nonnegative for N/E, nonpositive for S/W,
and strictly negative only for S/W; and whenever the derived minute and
second components are below 60, the value lies in `[-90, 90]` when the
derived degree component is at most 89 and in `[-180, 180]` when it is at
most 179.  (The unamended "negative iff S or W" fails on all-zero tokens.) -/
theorem c9_dms_range_sign (num : List Char) (hemi : Char) (v : ℚ)
    (hd : allDigits num = true) (h4 : 4 ≤ num.length) (h7 : num.length ≤ 7)
    (hh : hemi = 'N' ∨ hemi = 'S' ∨ hemi = 'E' ∨ hemi = 'W') :
    (Geo.dms_token_to_deg (String.mk (num ++ [hemi])) = .ok v →
      ((hemi = 'N' ∨ hemi = 'E') → 0 ≤ v) ∧
      ((hemi = 'S' ∨ hemi = 'W') → v ≤ 0) ∧
      (v < 0 → hemi = 'S' ∨ hemi = 'W') ∧
      ((Geo.dmsComponents num).2.1 ≤ 59 → (Geo.dmsComponents num).2.2 ≤ 59 →
        ((Geo.dmsComponents num).1 ≤ 89 → -90 ≤ v ∧ v ≤ 90) ∧
        ((Geo.dmsComponents num).1 ≤ 179 → -180 ≤ v ∧ v ≤ 180))) ∧
    (∀ c, ScriptsGeo.dmsComponents num = some c →
      ScriptsGeo.dms_token_to_deg (String.mk (num ++ [hemi])) = .ok v →
      ((hemi = 'N' ∨ hemi = 'E') → 0 ≤ v) ∧
      ((hemi = 'S' ∨ hemi = 'W') → v ≤ 0) ∧
      (v < 0 → hemi = 'S' ∨ hemi = 'W') ∧
      (c.2.1 ≤ 59 → c.2.2 ≤ 59 →
        (c.1 ≤ 89 → -90 ≤ v ∧ v ≤ 90) ∧
        (c.1 ≤ 179 → -180 ≤ v ∧ v ≤ 180))) := by
  constructor
  · intro hok
    rw [geo_dms_eval num hemi hd h4 h7 hh] at hok
    exact dms_value_props hemi _ _ _ v hh (Except.ok.inj hok).symm
  · intro c hc hok
    rw [sgeo_dms_eval num hemi c hd h4 h7 hh hc] at hok
    exact dms_value_props hemi _ _ _ v hh (Except.ok.inj hok).symm

/-- C9 counterexample.  The valid latitude token `0000S` (0 degrees, 0
minutes, hemisphere S) parses to the value 0, which is not negative even
though the hemisphere letter is S — refuting "negative iff hemisphere is S
or W". -/
theorem c9_counterexample :
    Geo.dms_token_to_deg "0000S" = Except.ok 0 ∧
    ScriptsGeo.dms_token_to_deg "0000S" = Except.ok 0 ∧
    "0000S".data.getLast? = some 'S' ∧ ¬ ((0 : ℚ) < 0) := by
  have hstr : ("0000S" : String) = String.mk (['0', '0', '0', '0'] ++ ['S']) := by
    decide
  refine ⟨?_, ?_, by decide, by norm_num⟩
  · have h := geo_dms_eval ['0', '0', '0', '0'] 'S'
      (by decide) (by decide) (by decide) (Or.inr (Or.inl rfl))
    rw [hstr, h]
    have hc : Geo.dmsComponents ['0', '0', '0', '0'] = (0, 0, 0) := by decide
    rw [hc]
    congr 1
    norm_num [dmsSign]
  · have hs : ScriptsGeo.dmsComponents ['0', '0', '0', '0'] = some (0, 0, 0) := by
      decide
    have h := sgeo_dms_eval ['0', '0', '0', '0'] 'S' (0, 0, 0)
      (by decide) (by decide) (by decide) (Or.inr (Or.inl rfl)) hs
    rw [hstr, h]
    congr 1
    norm_num [dmsSign]

/-- C9 witness: the amended theorem applied to the token `5850N`
(58 degrees 50 minutes North, value `353/6`). -/
theorem c9_witness : 0 ≤ (353 / 6 : ℚ) ∧ -90 ≤ (353 / 6 : ℚ) ∧ (353 / 6 : ℚ) ≤ 90 := by
  have hok : Geo.dms_token_to_deg (String.mk (['5', '8', '5', '0'] ++ ['N'])) =
      .ok (353 / 6) := by
    have h := geo_dms_eval ['5', '8', '5', '0'] 'N'
      (by decide) (by decide) (by decide) (Or.inl rfl)
    rw [h]
    have hc : Geo.dmsComponents ['5', '8', '5', '0'] = (58, 50, 0) := by decide
    rw [hc]
    have hsgn : dmsSign 'N' = 1 := by simp [dmsSign]
    rw [hsgn]
    congr 1
    norm_num
  have h := (c9_dms_range_sign ['5', '8', '5', '0'] 'N' (353 / 6) (by decide)
    (by decide) (by decide) (Or.inl rfl)).1 hok
  have hr := (h.2.2.2 (by decide) (by decide)).1 (by decide)
  exact ⟨h.1 (Or.inl rfl), hr.1, hr.2⟩

/-- Helper: `takeWhile` is empty when the head fails the test. -/
lemma takeWhile_nil_of_head (p : Char → Bool) (l : List Char)
    (h : ∀ c ∈ l.head?, p c = false) : l.takeWhile p = [] := by
  cases l with
  | nil => rfl
  | cons a t =>
    have ha : p a = false := h a rfl
    simp [List.takeWhile_cons, ha]

/-- Helper: `takeWhile`/`dropWhile` split an append at a failing head. -/
lemma takeWhile_dropWhile_append (p : Char → Bool) (ds rest : List Char)
    (hds : ds.all p = true) (hrest : ∀ c ∈ rest.head?, p c = false) :
    (ds ++ rest).takeWhile p = ds ∧ (ds ++ rest).dropWhile p = rest := by
  induction ds with
  | nil =>
    rw [List.nil_append]
    exact ⟨takeWhile_nil_of_head p rest hrest,
      dropWhile_eq_self_of_head p rest hrest⟩
  | cons a t ih =>
    rw [List.all_cons, Bool.and_eq_true] at hds
    have iht := ih hds.2
    simp [List.takeWhile_cons, List.dropWhile_cons, hds.1, iht.1, iht.2]

/-- Boolean prefix test (the fixed unit alternatives of the distance regex). -/
def leadsWith : List Char → List Char → Bool
  | [], _ => true
  | _ :: _, [] => false
  | a :: as, b :: bs => a == b && leadsWith as bs

/-- Exact value of the decimal literal `ds.fs` (Python `float` on the digit
group captured by the distance regex, represented exactly in ℚ). -/
def fracVal (ds fs : List Char) : ℚ :=
  (natOfDigits ds : ℚ) + (natOfDigits fs : ℚ) / 10 ^ fs.length

/-- The `\d+(?:\.\d+)?` step of the distance regex: consume an optional
fractional part after the integer digits `ds`, returning the numeric value
and the remaining text (the regex never backtracks here because neither a
digit nor a dot can begin a unit). -/
def numAndRest (ds rest : List Char) : ℚ × List Char :=
  if rest.head? = some '.' then
    if rest.tail.takeWhile Char.isDigit = [] then ((natOfDigits ds : ℚ), rest)
    else (fracVal ds (rest.tail.takeWhile Char.isDigit),
      rest.tail.dropWhile Char.isDigit)
  else ((natOfDigits ds : ℚ), rest)

/-- The `(KM|NM|M)` step of `m_from_text` plus the unit conversion
(km times 1000, NM times 1852, metres unchanged). -/
def mUnit (orig : String) (vr : ℚ × List Char) : Except GeoErr ℚ :=
  if leadsWith ['K', 'M'] vr.2 then .ok (vr.1 * 1000)
  else if leadsWith ['N', 'M'] vr.2 then .ok (vr.1 * 1852)
  else if leadsWith ['M'] vr.2 then .ok vr.1
  else .error (.invalidDistance orig)

/-- Matching core of `m_from_text`: Python
`re.match((\d+(?:\.\d+)?)(KM|NM|M), t)` on the normalized text, which is
deterministic (maximal munch) because no unit begins with a digit or dot. -/
def mFromChars (orig : String) (cs : List Char) : Except GeoErr ℚ :=
  if cs.takeWhile Char.isDigit = [] then .error (.invalidDistance orig)
  else mUnit orig (numAndRest (cs.takeWhile Char.isDigit) (cs.dropWhile Char.isDigit))

/-- Normalization of `m_from_text` (`scripts/geo.py` line 152):
`val_text.strip().upper().replace(" ", "")`. -/
def normalizeDist (s : String) : List Char :=
  ((stripChars s.data).map Char.toUpper).filter (fun c => c != ' ')

/-- Model of `scripts/geo.py m_from_text` (lines 148-163); `_geo.py` lines 159-173
are identical except for the order of the regex alternatives `(KM|M|NM)`
versus `(KM|NM|M)`, which decide the same language since the three units
start with pairwise distinct characters. -/
def m_from_text (s : String) : Except GeoErr ℚ := mFromChars s (normalizeDist s)

/-- A recognized unit begins the remaining text. -/
def unitLeads (rest : List Char) : Prop :=
  leadsWith ['K', 'M'] rest = true ∨ leadsWith ['N', 'M'] rest = true ∨
    leadsWith ['M'] rest = true

/-- Specification-style success condition for the distance regex: the text
decomposes as a nonempty digit block, an optional nonempty fractional
block, and then a recognized unit (anything may trail). -/
def distTokenLeads (cs : List Char) : Prop :=
  ∃ ds rest, cs = ds ++ rest ∧ ds ≠ [] ∧ ds.all Char.isDigit = true ∧
    (unitLeads rest ∨
      ∃ fs rest2, rest = '.' :: (fs ++ rest2) ∧ fs ≠ [] ∧
        fs.all Char.isDigit = true ∧ unitLeads rest2)

/-- If `leadsWith (a :: u) rest` holds then `rest` starts with `a`. -/
lemma leadsWith_head (u : List Char) (a : Char) (rest : List Char)
    (h : leadsWith (a :: u) rest = true) : ∃ bs, rest = a :: bs := by
  cases rest with
  | nil => simp [leadsWith] at h
  | cons b bs =>
    rw [leadsWith, Bool.and_eq_true, beq_iff_eq] at h
    exact ⟨bs, by rw [h.1]⟩

/-- A unit-leading remainder starts with K, N or M, hence not a digit. -/
lemma unitLeads_head_not_digit (rest : List Char) (h : unitLeads rest) :
    ∀ c ∈ rest.head?, Char.isDigit c = false := by
  intro c hc
  rcases h with h | h | h
  · obtain ⟨bs, rfl⟩ := leadsWith_head _ 'K' _ h
    have hck : 'K' = c := by simpa using hc
    rw [← hck]
    decide
  · obtain ⟨bs, rfl⟩ := leadsWith_head _ 'N' _ h
    have hck : 'N' = c := by simpa using hc
    rw [← hck]
    decide
  · obtain ⟨bs, rfl⟩ := leadsWith_head _ 'M' _ h
    have hck : 'M' = c := by simpa using hc
    rw [← hck]
    decide

/-- A unit-leading remainder does not start with a dot. -/
lemma unitLeads_head_ne_dot (rest : List Char) (h : unitLeads rest) :
    rest.head? ≠ some '.' := by
  rcases h with h | h | h
  · obtain ⟨bs, rfl⟩ := leadsWith_head _ 'K' _ h
    simp
  · obtain ⟨bs, rfl⟩ := leadsWith_head _ 'N' _ h
    simp
  · obtain ⟨bs, rfl⟩ := leadsWith_head _ 'M' _ h
    simp

/-- A dotted remainder is never unit-leading. -/
lemma not_unitLeads_dot (t : List Char) : ¬ unitLeads ('.' :: t) := by
  intro h
  rcases h with h | h | h <;> simp [leadsWith] at h

/-- Evaluation: `numAndRest` on a unit-leading remainder consumes nothing. -/
lemma numAndRest_unit (ds rest : List Char) (h : unitLeads rest) :
    numAndRest ds rest = ((natOfDigits ds : ℚ), rest) := by
  unfold numAndRest
  rw [if_neg (unitLeads_head_ne_dot rest h)]

/-- Evaluation: `numAndRest` on a dotted nonempty fraction consumes it. -/
lemma numAndRest_frac (ds fs rest2 : List Char) (hfs : fs ≠ [])
    (hdig : fs.all Char.isDigit = true)
    (hrest2 : ∀ c ∈ rest2.head?, Char.isDigit c = false) :
    numAndRest ds ('.' :: (fs ++ rest2)) = (fracVal ds fs, rest2) := by
  have hsplit := takeWhile_dropWhile_append Char.isDigit fs rest2 hdig hrest2
  unfold numAndRest
  rw [if_pos (by simp)]
  simp only [List.tail_cons]
  rw [hsplit.1, hsplit.2, if_neg hfs]

/-- Success of `mUnit` holds exactly when a recognized unit leads the text. -/
lemma mUnit_ok_iff (orig : String) (vr : ℚ × List Char) :
    exOk (mUnit orig vr) = true ↔ unitLeads vr.2 := by
  unfold mUnit unitLeads
  split_ifs with h1 h2 h3 <;> simp_all [exOk]

/-- All elements of `takeWhile p l` satisfy `p`. -/
lemma all_takeWhile_eq_true (p : Char → Bool) (l : List Char) :
    (l.takeWhile p).all p = true := by
  induction l with
  | nil => rfl
  | cons a t ih =>
    cases hpa : p a
    · simp [List.takeWhile_cons, hpa]
    · simp [List.takeWhile_cons, hpa, ih]

/-- Success characterization of the matching core: `mFromChars` succeeds
exactly when the text decomposes as digits, an optional dotted digit block,
and a recognized leading unit. -/
lemma mFromChars_ok_iff (orig : String) (cs : List Char) :
    exOk (mFromChars orig cs) = true ↔ distTokenLeads cs := by
  constructor
  · intro hok
    unfold mFromChars at hok
    by_cases hds : cs.takeWhile Char.isDigit = []
    · rw [if_pos hds] at hok
      simp [exOk] at hok
    · rw [if_neg hds] at hok
      have hunit := (mUnit_ok_iff _ _).mp hok
      refine ⟨cs.takeWhile Char.isDigit, cs.dropWhile Char.isDigit,
        (List.takeWhile_append_dropWhile Char.isDigit cs).symm, hds,
        all_takeWhile_eq_true Char.isDigit cs, ?_⟩
      by_cases hdot : (cs.dropWhile Char.isDigit).head? = some '.'
      · obtain ⟨rt, hrt⟩ : ∃ rt, cs.dropWhile Char.isDigit = '.' :: rt := by
          cases hcs : cs.dropWhile Char.isDigit with
          | nil => rw [hcs] at hdot; simp at hdot
          | cons a t =>
            rw [hcs] at hdot
            simp at hdot
            exact ⟨t, by rw [hdot]⟩
        rw [hrt] at hunit ⊢
        by_cases hfz : rt.takeWhile Char.isDigit = []
        · have hn : numAndRest (cs.takeWhile Char.isDigit) ('.' :: rt) =
              ((natOfDigits (cs.takeWhile Char.isDigit) : ℚ), '.' :: rt) := by
            unfold numAndRest
            rw [if_pos (by simp)]
            simp only [List.tail_cons]
            rw [if_pos hfz]
          rw [hn] at hunit
          exact absurd hunit (not_unitLeads_dot rt)
        · right
          have hn : numAndRest (cs.takeWhile Char.isDigit) ('.' :: rt) =
              (fracVal (cs.takeWhile Char.isDigit) (rt.takeWhile Char.isDigit),
                rt.dropWhile Char.isDigit) := by
            unfold numAndRest
            rw [if_pos (by simp)]
            simp only [List.tail_cons]
            rw [if_neg hfz]
          rw [hn] at hunit
          exact ⟨rt.takeWhile Char.isDigit, rt.dropWhile Char.isDigit,
            by rw [List.takeWhile_append_dropWhile], hfz,
            all_takeWhile_eq_true Char.isDigit rt, hunit⟩
      · left
        have hn : numAndRest (cs.takeWhile Char.isDigit)
            (cs.dropWhile Char.isDigit) =
            ((natOfDigits (cs.takeWhile Char.isDigit) : ℚ),
              cs.dropWhile Char.isDigit) := by
          unfold numAndRest
          rw [if_neg hdot]
        rw [hn] at hunit
        exact hunit
  · rintro ⟨ds, rest, rfl, hne, hdig, hcase⟩
    unfold mFromChars
    rcases hcase with hu | ⟨fs, rest2, hrfl, hfs, hfdig, hu2⟩
    · have hsplit := takeWhile_dropWhile_append Char.isDigit ds rest hdig
        (unitLeads_head_not_digit rest hu)
      rw [hsplit.1, hsplit.2, if_neg hne]
      rw [numAndRest_unit _ _ hu]
      exact (mUnit_ok_iff _ _).mpr hu
    · subst hrfl
      have hdot_head : ∀ c ∈ (('.' :: (fs ++ rest2)) : List Char).head?,
          Char.isDigit c = false := by
        intro c hc
        have hdc : '.' = c := by simpa using hc
        rw [← hdc]
        decide
      have hsplit := takeWhile_dropWhile_append Char.isDigit ds
        ('.' :: (fs ++ rest2)) hdig hdot_head
      rw [hsplit.1, hsplit.2, if_neg hne]
      rw [numAndRest_frac ds fs rest2 hfs hfdig
        (unitLeads_head_not_digit rest2 hu2)]
      exact (mUnit_ok_iff _ _).mpr hu2

/-- Evaluating the matching core when a unit directly follows the digits. -/
lemma mFromChars_eval_unit (orig : String) (ds u : List Char) (hne : ds ≠ [])
    (hdig : ds.all Char.isDigit = true) (hu : unitLeads u) :
    mFromChars orig (ds ++ u) = mUnit orig ((natOfDigits ds : ℚ), u) := by
  have hsplit := takeWhile_dropWhile_append Char.isDigit ds u hdig
    (unitLeads_head_not_digit u hu)
  unfold mFromChars
  rw [hsplit.1, hsplit.2, if_neg hne, numAndRest_unit _ _ hu]

/-- Evaluating the matching core on `digits.digits` followed by a unit. -/
lemma mFromChars_eval_frac (orig : String) (ds fs u : List Char) (hne : ds ≠ [])
    (hfs : fs ≠ []) (hdig : ds.all Char.isDigit = true)
    (hfdig : fs.all Char.isDigit = true) (hu : unitLeads u) :
    mFromChars orig (ds ++ '.' :: (fs ++ u)) = mUnit orig (fracVal ds fs, u) := by
  have hdot_head : ∀ c ∈ (('.' :: (fs ++ u)) : List Char).head?,
      Char.isDigit c = false := by
    intro c hc
    have hdc : '.' = c := by simpa using hc
    rw [← hdc]
    decide
  have hsplit := takeWhile_dropWhile_append Char.isDigit ds ('.' :: (fs ++ u))
    hdig hdot_head
  unfold mFromChars
  rw [hsplit.1, hsplit.2, if_neg hne,
    numAndRest_frac ds fs u hfs hfdig (unitLeads_head_not_digit u hu)]

/-- C8 (amended).  `m_from_text` succeeds exactly when the normalized text
begins with a decimal number immediately followed by a recognized unit
(anything may trail after the unit), and on such inputs it converts KM by
1000, NM by 1852 and M by 1.  The unamended "fails exactly when the unit is
unrecognized" reading is refuted by `c8_counterexample`: trailing text after
a recognized unit is ignored rather than rejected. -/
theorem c8_m_from_text :
    (∀ s : String,
      exOk (m_from_text s) = true ↔ distTokenLeads (normalizeDist s)) ∧
    (∀ (orig : String) (ds : List Char), ds ≠ [] → ds.all Char.isDigit = true →
      mFromChars orig (ds ++ ['K', 'M']) = .ok ((natOfDigits ds : ℚ) * 1000) ∧
      mFromChars orig (ds ++ ['N', 'M']) = .ok ((natOfDigits ds : ℚ) * 1852) ∧
      mFromChars orig (ds ++ ['M']) = .ok ((natOfDigits ds : ℚ))) ∧
    (∀ (orig : String) (ds fs : List Char), ds ≠ [] → fs ≠ [] →
      ds.all Char.isDigit = true → fs.all Char.isDigit = true →
      mFromChars orig (ds ++ '.' :: (fs ++ ['K', 'M'])) =
        .ok (fracVal ds fs * 1000) ∧
      mFromChars orig (ds ++ '.' :: (fs ++ ['N', 'M'])) =
        .ok (fracVal ds fs * 1852) ∧
      mFromChars orig (ds ++ '.' :: (fs ++ ['M'])) = .ok (fracVal ds fs)) := by
  refine ⟨?_, ?_, ?_⟩
  · intro s
    exact mFromChars_ok_iff s (normalizeDist s)
  · intro orig ds hne hdig
    refine ⟨?_, ?_, ?_⟩
    · rw [mFromChars_eval_unit orig ds ['K', 'M'] hne hdig (Or.inl (by decide))]
      rfl
    · rw [mFromChars_eval_unit orig ds ['N', 'M'] hne hdig
        (Or.inr (Or.inl (by decide)))]
      rfl
    · rw [mFromChars_eval_unit orig ds ['M'] hne hdig
        (Or.inr (Or.inr (by decide)))]
      rfl
  · intro orig ds fs hne hfs hdig hfdig
    refine ⟨?_, ?_, ?_⟩
    · rw [mFromChars_eval_frac orig ds fs ['K', 'M'] hne hfs hdig hfdig
        (Or.inl (by decide))]
      rfl
    · rw [mFromChars_eval_frac orig ds fs ['N', 'M'] hne hfs hdig hfdig
        (Or.inr (Or.inl (by decide)))]
      rfl
    · rw [mFromChars_eval_frac orig ds fs ['M'] hne hfs hdig hfdig
        (Or.inr (Or.inr (by decide)))]
      rfl

/-- C8 counterexample.  On `5KMX` the magnitude is numeric but the text
after it, `KMX`, is not one of the three units — yet `m_from_text` returns
5000 instead of failing, because the source regex only prefix-matches. -/
theorem c8_counterexample :
    m_from_text "5KMX" = Except.ok 5000 ∧
    normalizeDist "5KMX" = ['5'] ++ ['K', 'M', 'X'] ∧
    (['K', 'M', 'X'] : List Char) ≠ ['K', 'M'] ∧
    (['K', 'M', 'X'] : List Char) ≠ ['N', 'M'] ∧
    (['K', 'M', 'X'] : List Char) ≠ ['M'] := by
  have hn : normalizeDist "5KMX" = ['5', 'K', 'M', 'X'] := by decide
  refine ⟨?_, by decide, by decide, by decide, by decide⟩
  show mFromChars "5KMX" (normalizeDist "5KMX") = Except.ok 5000
  rw [hn]
  have h1 : (['5', 'K', 'M', 'X'] : List Char).takeWhile Char.isDigit =
      ['5'] := by decide
  have h2 : (['5', 'K', 'M', 'X'] : List Char).dropWhile Char.isDigit =
      ['K', 'M', 'X'] := by decide
  unfold mFromChars
  rw [h1, h2, if_neg (by decide : ¬((['5'] : List Char) = [])),
    numAndRest_unit _ _ (Or.inl (by decide))]
  have h4 : ∀ v : ℚ, mUnit "5KMX" (v, ['K', 'M', 'X']) = .ok (v * 1000) :=
    fun v => rfl
  rw [h4]
  have h3 : natOfDigits ['5'] = 5 := by decide
  rw [h3]
  congr 1
  norm_num

/-- C8 witness: the amended theorem applied to `5KM`. -/
theorem c8_witness :
    mFromChars "5KM" (['5'] ++ ['K', 'M']) =
      .ok ((natOfDigits ['5'] : ℚ) * 1000) :=
  (c8_m_from_text.2.1 "5KM" ['5'] (by decide) (by decide)).1

/-- A lon/lat point (a Python float pair, modelled exactly in ℚ). -/
abbrev Pt := ℚ × ℚ

/-- The two shapely services `build_polygon` consumes (`Polygon.is_valid`
and `Polygon.buffer(0)`), abstracted with the guarantees shapely documents:
a zero-buffer repair always yields a valid geometry whose exterior ring is
closed.  The repository code never inspects these results further. -/
structure ShapelyModel where
  isValid : List Pt → Bool
  buffer0 : List Pt → List Pt
  buffer0_valid : ∀ r, isValid (buffer0 r) = true
  buffer0_closed : ∀ r, (buffer0 r).head? = (buffer0 r).getLast?

/-- A trivial instantiation of the shapely interface (identity repair,
everything valid), used to evaluate the repository control flow, which
never branches on point coordinates through shapely. -/
def shTriv : ShapelyModel where
  isValid := fun _ => true
  buffer0 := fun _ => []
  buffer0_valid := fun _ => rfl
  buffer0_closed := fun _ => rfl

/-- Tail of the consecutive deduplication: `prev` is the last kept point. -/
def dedupAux (prev : Pt) : List Pt → List Pt
  | [] => []
  | q :: rest => if q = prev then dedupAux prev rest else q :: dedupAux q rest

/-- Consecutive deduplication of `scripts/geo.py build_polygon`
(lines 207-210): keep the first point, then every point that differs from
the previously kept one. -/
def dedupConsecutive : List Pt → List Pt
  | [] => []
  | p :: rest => p :: dedupAux p rest

/-- Ring closing step of `build_polygon` (lines 235-236): append the first
vertex when it differs from the last. -/
def closeRing (coords : List Pt) : List Pt :=
  match coords.head? with
  | some c0 => if coords.getLast? ≠ some c0 then coords ++ [c0] else coords
  | none => coords

/-- Validity fix-up of `build_polygon` (lines 238-241): return the ring
unchanged when shapely reports it valid, else its zero-buffer repair. -/
def polyFix (sh : ShapelyModel) (ring : List Pt) : List Pt :=
  if sh.isValid ring then ring else sh.buffer0 ring

/-- Model of `scripts/geo.py build_polygon` (lines 199-241).  Raises (the
`InsufficientVertices` ValueError) for an empty input and for a nonempty
input of fewer than 3 raw points; when deduplication leaves fewer than 3
points but the raw list has at least 3, it falls back to the raw
coordinates (the source comments call this out explicitly). -/
def build_polygon (sh : ShapelyModel) (coords : List Pt) :
    Except GeoErr (List Pt) :=
  if coords = [] then .error .insufficientVertices
  else if (dedupConsecutive coords).length < 3 ∧ coords.length < 3 then
    .error .insufficientVertices
  else
    .ok (polyFix sh (closeRing
      (if (dedupConsecutive coords).length < 3 then coords
       else dedupConsecutive coords)))

/-- The deduplication tail never lengthens the list. -/
lemma dedupAux_length_le (l : List Pt) :
    ∀ prev, (dedupAux prev l).length ≤ l.length := by
  induction l with
  | nil =>
    intro prev
    simp [dedupAux]
  | cons q rest ih =>
    intro prev
    by_cases h : q = prev
    · simp only [dedupAux]
      rw [if_pos h]
      exact Nat.le_succ_of_le (ih prev)
    · simp only [dedupAux]
      rw [if_neg h]
      simpa using ih q

/-- Deduplication never lengthens the list. -/
lemma dedupConsecutive_length_le (l : List Pt) :
    (dedupConsecutive l).length ≤ l.length := by
  cases l with
  | nil => simp [dedupConsecutive]
  | cons p rest =>
    simp only [dedupConsecutive, List.length_cons]
    exact Nat.succ_le_succ (dedupAux_length_le rest p)

/-- Helper: `closeRing` always returns a closed ring. -/
lemma closeRing_closed (l : List Pt) :
    (closeRing l).head? = (closeRing l).getLast? := by
  cases l with
  | nil => rfl
  | cons a t =>
    unfold closeRing
    simp only [List.head?_cons]
    by_cases hlast : (a :: t).getLast? ≠ some a
    · rw [if_pos hlast]
      have h1 : ((a :: t) ++ [a]).head? = some a := rfl
      have h2 : ((a :: t) ++ [a]).getLast? = some a := List.getLast?_concat _
      rw [h1, h2]
    · rw [if_neg hlast]
      rw [not_not] at hlast
      simp [hlast]

/-- The fix-up result is always shapely-valid. -/
lemma polyFix_valid (sh : ShapelyModel) (ring : List Pt) :
    sh.isValid (polyFix sh ring) = true := by
  unfold polyFix
  by_cases h : sh.isValid ring = true
  · rw [if_pos h]
    exact h
  · rw [if_neg h]
    exact sh.buffer0_valid ring

/-- The fix-up preserves closedness. -/
lemma polyFix_closed (sh : ShapelyModel) (ring : List Pt)
    (h : ring.head? = ring.getLast?) :
    (polyFix sh ring).head? = (polyFix sh ring).getLast? := by
  unfold polyFix
  by_cases hv : sh.isValid ring = true
  · rw [if_pos hv]
    exact h
  · rw [if_neg hv]
    exact sh.buffer0_closed ring

/-- C1 (amended).  `build_polygon` fails (with `InsufficientVertices`)
exactly when the raw vertex list has fewer than 3 points — not when the
consecutive-dedup result does — and every successful result is a closed,
shapely-valid ring (raw ring when already valid, zero-buffer repair
otherwise).  A raw list of ≥ 3 points that deduplicates to < 3 points falls
back to the raw coordinates instead of failing. -/
theorem c1_build_polygon (sh : ShapelyModel) (coords : List Pt) :
    (exOk (build_polygon sh coords) = true ↔ 3 ≤ coords.length) ∧
    (∀ r, build_polygon sh coords = .ok r →
      r.head? = r.getLast? ∧ sh.isValid r = true) := by
  constructor
  · constructor
    · intro hok
      by_contra hlt
      rw [not_le] at hlt
      unfold build_polygon at hok
      by_cases hnil : coords = []
      · rw [if_pos hnil] at hok
        simp [exOk] at hok
      · rw [if_neg hnil] at hok
        have hle := dedupConsecutive_length_le coords
        rw [if_pos ⟨by omega, hlt⟩] at hok
        simp [exOk] at hok
    · intro hge
      unfold build_polygon
      rw [if_neg (by intro h; rw [h] at hge; simp at hge)]
      rw [if_neg (by rintro ⟨h1, h2⟩; omega)]
      simp [exOk]
  · intro r hr
    unfold build_polygon at hr
    by_cases hnil : coords = []
    · rw [if_pos hnil] at hr
      cases hr
    · rw [if_neg hnil] at hr
      by_cases hcond :
          (dedupConsecutive coords).length < 3 ∧ coords.length < 3
      · rw [if_pos hcond] at hr
        cases hr
      · rw [if_neg hcond] at hr
        have hre := Except.ok.inj hr
        rw [← hre]
        exact ⟨polyFix_closed sh _ (closeRing_closed _), polyFix_valid sh _⟩

/-- C1 counterexample.  The raw list `[(0,0), (0,0), (0,0), (1,1)]` leaves
only 2 distinct points after consecutive dedup, so the claim demands an
`InsufficientVertices` failure — but `build_polygon` succeeds, falling back
to the raw coordinates and returning the auto-closed raw ring. -/
theorem c1_counterexample :
    dedupConsecutive [((0 : ℚ), (0 : ℚ)), (0, 0), (0, 0), (1, 1)] =
      [(0, 0), (1, 1)] ∧
    build_polygon shTriv [((0 : ℚ), (0 : ℚ)), (0, 0), (0, 0), (1, 1)] =
      .ok [(0, 0), (0, 0), (0, 0), (1, 1), (0, 0)] := by
  constructor
  · decide
  · decide

/-- C1 witness: the amended theorem applied to a 3-point open triangle. -/
theorem c1_witness :
    exOk (build_polygon shTriv [((0 : ℚ), 0), (1, 0), (0, 1)]) = true ∧
    (([(0, 0), (1, 0), (0, 1), (0, 0)] : List Pt).head? =
      ([(0, 0), (1, 0), (0, 1), (0, 0)] : List Pt).getLast?) := by
  have h := c1_build_polygon shTriv [((0 : ℚ), 0), (1, 0), (0, 1)]
  refine ⟨h.1.mpr (by decide), ?_⟩
  exact (h.2 ([(0, 0), (1, 0), (0, 1), (0, 0)] : List Pt) (by decide)).1

/-- Python float modulo with positive modulus: `a % b = a - b * floor(a/b)`. -/
def pymod (a b : ℚ) : ℚ := a - b * (⌊a / b⌋ : ℚ)

/-- Normalized angular span of `build_sector`
(`scripts/geo.py` line 294): `(az_max_deg - az_min_deg) % 360`. -/
def sectorSpan (az_min az_max : ℚ) : ℚ := pymod (az_max - az_min) 360

/-- Step count of `build_sector` (line 295):
`max(8, int(n * (span / 360)))`; the truncation equals the floor since the
span is nonnegative. -/
def sectorSteps (az_min az_max : ℚ) (n : ℕ) : ℕ :=
  max 8 (⌊(n : ℚ) * (sectorSpan az_min az_max / 360)⌋.toNat)

/-- Vertex list of `scripts/geo.py build_sector` (lines 272-302; identical
in `_geo.py` lines 249-279): the centre, then `steps + 1` arc vertices at
bearings `(az_min + i * span / steps) % 360`, then the centre again.  The
trigonometric placement `polar_to_xy` and the AEQD projection are external
numerics (math/pyproj) and are abstracted as the parameter `polar`; the
repository-owned bearing/step logic is modelled exactly. -/
def build_sector_pts {α : Type} (polar : ℚ → ℚ → α)
    (radius az_min az_max : ℚ) (n : ℕ) : List α :=
  [polar 0 0] ++
    ((List.range (sectorSteps az_min az_max n + 1)).map fun (i : ℕ) =>
      polar radius
        (pymod (az_min + (i : ℚ) * sectorSpan az_min az_max /
          (sectorSteps az_min az_max n : ℚ)) 360)) ++
  [polar 0 0]

/-- C5 (amended).  When the normalized angular span is zero (for instance
`az_start = az_end`), `build_sector` does NOT fall back to a full circle:
it emits the centre plus nine copies of the single bearing point
`az_min % 360` — a degenerate zero-area wedge. -/
theorem c5_zero_span_sector {α : Type} (polar : ℚ → ℚ → α)
    (radius az1 az2 : ℚ) (n : ℕ) (h : sectorSpan az1 az2 = 0) :
    build_sector_pts polar radius az1 az2 n =
      [polar 0 0] ++ List.replicate 9 (polar radius (pymod az1 360)) ++
        [polar 0 0] := by
  have hsteps : sectorSteps az1 az2 n = 8 := by
    unfold sectorSteps
    rw [h]
    norm_num
  unfold build_sector_pts
  rw [hsteps, h]
  congr 1
  congr 1
  have hmap : ∀ i ∈ List.range (8 + 1),
      polar radius (pymod (az1 + (i : ℚ) * 0 / ((8 : ℕ) : ℚ)) 360) =
        polar radius (pymod az1 360) := by
    intro i _
    norm_num
  rw [List.map_congr_left hmap]
  simp [List.map_const]

/-- C5 counterexample.  For `az_start = az_end = 90` (zero normalized
span), radius 1000 and the default `n = 128`, the emitted ring is the
centre plus nine copies of the single bearing-90 vertex: a degenerate
wedge, not a full circle (whose ring would contain many distinct
bearings). -/
theorem c5_counterexample :
    sectorSpan 90 90 = 0 ∧
    build_sector_pts Prod.mk 1000 90 90 128 =
      [((0 : ℚ), (0 : ℚ))] ++ List.replicate 9 ((1000 : ℚ), (90 : ℚ)) ++
        [(0, 0)] := by
  have hspan : sectorSpan 90 90 = 0 := by
    unfold sectorSpan pymod
    norm_num
  refine ⟨hspan, ?_⟩
  have hsteps : sectorSteps 90 90 128 = 8 := by
    unfold sectorSteps
    rw [hspan]
    norm_num
  have hb : pymod 90 360 = 90 := by
    unfold pymod
    norm_num
  unfold build_sector_pts
  rw [hsteps, hspan]
  congr 1
  congr 1
  have hmap : ∀ i ∈ List.range (8 + 1),
      (fun (i : ℕ) =>
        ((1000 : ℚ), pymod ((90 : ℚ) + (i : ℚ) * 0 / ((8 : ℕ) : ℚ)) 360)) i =
        ((1000 : ℚ), (90 : ℚ)) := by
    intro i _
    simp only
    rw [show (90 : ℚ) + (i : ℚ) * 0 / ((8 : ℕ) : ℚ) = 90 by norm_num, hb]
  rw [List.map_congr_left hmap]
  simp [List.map_const]

/-- C5 witness: the amended theorem applied at `az_start = az_end = 45`. -/
theorem c5_witness :
    build_sector_pts Prod.mk (500 : ℚ) 45 45 64 =
      [((0 : ℚ), (0 : ℚ))] ++ List.replicate 9 ((500 : ℚ), pymod 45 360) ++
        [(0, 0)] :=
  c5_zero_span_sector Prod.mk 500 45 45 64 (by unfold sectorSpan pymod; norm_num)

namespace ScriptsGeo

/-- Python `float()` restricted to the digit/dot strings captured by the
`[0-9.]+` groups of the cascade regexes: succeeds on `digits`,
`digits.digits`, `.digits` and `digits.`; fails on a bare dot, a second
dot, or any other remainder. -/
def pyFloat (s : String) : Except GeoErr ℚ :=
  if s.data.dropWhile Char.isDigit = [] then
    if s.data.takeWhile Char.isDigit = [] then .error (.pyFloatError s)
    else .ok (natOfDigits (s.data.takeWhile Char.isDigit) : ℚ)
  else if (s.data.dropWhile Char.isDigit).head? = some '.' ∧
      ((s.data.dropWhile Char.isDigit).tail.dropWhile Char.isDigit = []) ∧
      ¬(s.data.takeWhile Char.isDigit = [] ∧
        (s.data.dropWhile Char.isDigit).tail.takeWhile Char.isDigit = []) then
    .ok ((natOfDigits (s.data.takeWhile Char.isDigit) : ℚ) +
      (natOfDigits ((s.data.dropWhile Char.isDigit).tail.takeWhile Char.isDigit) : ℚ) /
        10 ^ ((s.data.dropWhile Char.isDigit).tail.takeWhile Char.isDigit).length)
  else .error (.pyFloatError s)

/-- Match `\d«4,6»[NS]` at the start of the text (the latitude token of
`parse_latlon_pair`): regex backtracking is vacuous here because the digit
run before the hemisphere letter is forced to be maximal.  Returns the
token and the remaining text. -/
def matchLatTok (cs : List Char) : Option (List Char × List Char) :=
  if 4 ≤ (cs.takeWhile Char.isDigit).length ∧
      (cs.takeWhile Char.isDigit).length ≤ 6 then
    match (cs.dropWhile Char.isDigit).head? with
    | some h =>
      if h = 'N' ∨ h = 'S' then
        some (cs.takeWhile Char.isDigit ++ [h], (cs.dropWhile Char.isDigit).tail)
      else none
    | none => none
  else none

/-- Match `\d«5,7»[EW]` at the start (the longitude token). -/
def matchLonTok (cs : List Char) : Option (List Char × List Char) :=
  if 5 ≤ (cs.takeWhile Char.isDigit).length ∧
      (cs.takeWhile Char.isDigit).length ≤ 7 then
    match (cs.dropWhile Char.isDigit).head? with
    | some h =>
      if h = 'E' ∨ h = 'W' then
        some (cs.takeWhile Char.isDigit ++ [h], (cs.dropWhile Char.isDigit).tail)
      else none
    | none => none
  else none

/-- First regex of `parse_latlon_pair` (line 72): fullmatch of
`(\d«4,6»[NS])\s*(\d«5,7»[EW])`. -/
def latlonFull (cs : List Char) : Option (List Char × List Char) :=
  match matchLatTok cs with
  | some (lt, r) =>
    match matchLonTok (r.dropWhile Char.isWhitespace) with
    | some (ln, r2) => if r2 = [] then some (lt, ln) else none
    | none => none
  | none => none

/-- Second regex of `parse_latlon_pair` (line 75): prefix match of
`(\d«4,6»[NS])(\d«5,7»[EW])` with no separator and trailing text allowed. -/
def latlonCompact (cs : List Char) : Option (List Char × List Char) :=
  match matchLatTok cs with
  | some (lt, r) =>
    match matchLonTok r with
    | some (ln, _) => some (lt, ln)
    | none => none
  | none => none

/-- One step of Python `str.split()` built by `foldr`. -/
def splitWsAux (c : Char) (acc : List (List Char)) : List (List Char) :=
  if c.isWhitespace then [] :: acc
  else
    match acc with
    | [] => [[c]]
    | w :: ws => (c :: w) :: ws

/-- Python `str.split()`: whitespace-separated tokens, no empties. -/
def splitWs (cs : List Char) : List (List Char) :=
  (cs.foldr splitWsAux []).filter (fun w => !w.isEmpty)

/-- Separator normalization of `parse_latlon_pair` (line 70): commas,
dashes and en-dashes become spaces. -/
def sepToSpace (c : Char) : Char :=
  if c = ',' ∨ c = '-' ∨ c = '–' then ' ' else c

/-- Final token conversion of `parse_latlon_pair` (lines 90-92): both
tokens go through `dms_token_to_deg` (which may itself fail on the
whole-token fallback path) and the pair is returned as (lon, lat). -/
def pairFromToks (latTok lonTok : List Char) : Except GeoErr (ℚ × ℚ) := do
  let lat ← dms_token_to_deg (String.mk latTok)
  let lon ← dms_token_to_deg (String.mk lonTok)
  pure (lon, lat)

/-- Model of `scripts/geo.py parse_latlon_pair` (lines 65-92): strip and normalize
separators, then try the fullmatch regex, the compact prefix regex, and
finally a whitespace-token split whose first two tokens are passed whole to
`dms_token_to_deg`. -/
def parse_latlon_pair (pair : String) : Except GeoErr (ℚ × ℚ) :=
  match latlonFull ((stripChars pair.data).map sepToSpace) with
  | some (lt, ln) => pairFromToks lt ln
  | none =>
    match latlonCompact ((stripChars pair.data).map sepToSpace) with
    | some (lt, ln) => pairFromToks lt ln
    | none =>
      match splitWs ((stripChars pair.data).map sepToSpace) with
      | t0 :: t1 :: _ =>
        if (matchLatTok t0).isSome ∧ (matchLonTok t1).isSome then
          pairFromToks t0 t1
        else .error (.invalidPair pair)
      | _ => .error (.invalidPair pair)

/-- One attempt of the coordinate-sequence pattern
`(\d«4,6»[NS])\s*(\d«5,7»[EW])` at the current position. -/
def seqMatchAt (cs : List Char) : Option ((List Char × List Char) × List Char) :=
  match matchLatTok cs with
  | some (lt, r) =>
    match matchLonTok (r.dropWhile Char.isWhitespace) with
    | some (ln, r2) => some ((lt, ln), r2)
    | none => none
  | none => none

/-- The `re.finditer` scan of `parse_multi_latlon_seq` (lines 95-119): at each
position try the pattern; on a match convert both tokens (skipping the
match if conversion fails, the source `except ValueError: continue`) and
resume after the match, else advance one character.  Fuel is the remaining
length, which every step strictly decreases. -/
def scanSeq : ℕ → List Char → List (ℚ × ℚ)
  | 0, _ => []
  | _, [] => []
  | fuel + 1, c :: cs =>
    match seqMatchAt (c :: cs) with
    | some ((lt, ln), rest) =>
      (match dms_token_to_deg (String.mk lt), dms_token_to_deg (String.mk ln) with
       | .ok lat, .ok lon => [(lon, lat)]
       | _, _ => []) ++ scanSeq fuel rest
    | none => scanSeq fuel cs

/-- Model of `scripts/geo.py parse_multi_latlon_seq` (lines 95-119). -/
def parse_multi_latlon_seq (text : String) : List (ℚ × ℚ) :=
  scanSeq text.data.length text.data

end ScriptsGeo

namespace ScriptsGeo

/-- A geometry value, represented by the arguments the repository passes to
the external shapely/pyproj builders (`build_circle`, `build_sector`,
`build_ellipse`, `build_arc`, `build_line_corridor`, `Polygon`). -/
inductive GeomVal
  | circle (center : ℚ × ℚ) (radius_m : ℚ)
  | sector (center : ℚ × ℚ) (radius_m az1 az2 : ℚ)
  | ellipse (center : ℚ × ℚ) (major_km minor_km azm : ℚ)
  | arc (center : ℚ × ℚ) (radius_m : ℚ) (startPt endPt : ℚ × ℚ)
      (clockwise : Bool)
  | corridor (pts : List (ℚ × ℚ)) (half_width_m : ℚ)
  | polygon (ring : List (ℚ × ℚ))
  deriving DecidableEq

/-- Model of `scripts/geo.py NotamGeometryPart` (lines 389-396); the altitude dicts
are an opaque type parameter (they are attached verbatim). -/
structure NotamGeometryPart (A : Type) where
  kind : String
  geom : GeomVal
  altitude_from : A
  altitude_to : A
  index : ℕ
  raw : String
  deriving DecidableEq

/-- Captured groups of one `CIRCLE_RE` match (line 491): the distance text
`«number»«unit»` and the centre text. -/
structure CircleMatch where
  dist : String
  center : String
  raw : String

/-- Captured groups of one `SECTOR_RE` match (line 495), after resolving
which of the two orderings matched: centre, the two integral azimuths, and
the radius text. -/
structure SectorMatch where
  center : String
  az1 : String
  az2 : String
  dist : String
  raw : String

/-- Captured groups of one `ELLIPSE_RE` match (line 505). -/
structure EllipseMatch where
  center : String
  major : String
  minor : String
  unit : String
  azm : String
  raw : String

/-- Captured groups of one `ARC_RE` match (line 509). -/
structure ArcMatch where
  startTok : String
  direction : String
  radiusVal : String
  unit : String
  centerTok : String
  endTok : String
  raw : String

/-- Captured groups of the `LINE_EITHER_SIDE_RE` match (line 518), plus the
points block that `parse_line_points` (lines 564-576) extracts from the
subarea text (the span from the match start cut at `\.\s`, `F)` or `G)`). -/
structure LineMatch where
  width : String
  unit : String
  pointsBlock : String
  raw : String

/-- One subarea of the clause-E text (`parse_subareas`, lines 526-544),
with the regex-match layer applied: the raw subarea text plus the captured
groups of every cascade pattern occurrence, in `finditer` order.  The
`areas` entries are the `AREA:` trails after the newline join and the
`F)`/`G)` cut of `parse_coords_after` (lines 547-561). -/
structure Subarea where
  raw : String
  circles : List CircleMatch
  sectors : List SectorMatch
  ellipses : List EllipseMatch
  arcs : List ArcMatch
  line : Option LineMatch
  areas : List String

/-- An `Except`-valued `mapM`, written out to mirror the source loops (each
iteration may raise, aborting the whole traversal). -/
def mapME {A B : Type} (f : A → Except GeoErr B) : List A → Except GeoErr (List B)
  | [] => .ok []
  | x :: xs => do
    let y ← f x
    let ys ← mapME f xs
    pure (y :: ys)

/-- Circle branch of `build_parts_from_E` (lines 592-605): the radius text
through `m_from_text`, the centre through `parse_latlon_pair` — either may
raise, and nothing catches it. -/
def processCircle {A : Type} (f_alt g_alt : A) (idx : ℕ) (m : CircleMatch) :
    Except GeoErr (NotamGeometryPart A) := do
  let radius_m ← m_from_text m.dist
  let center ← parse_latlon_pair m.center
  pure ⟨"CIRCLE", .circle center radius_m, f_alt, g_alt, idx, m.raw⟩

/-- Sector branch (lines 608-631). -/
def processSector {A : Type} (f_alt g_alt : A) (idx : ℕ) (m : SectorMatch) :
    Except GeoErr (NotamGeometryPart A) := do
  let radius_m ← m_from_text m.dist
  let center ← parse_latlon_pair m.center
  pure ⟨"SECTOR",
    .sector center radius_m (natOfDigits m.az1.data) (natOfDigits m.az2.data),
    f_alt, g_alt, idx, m.raw⟩

/-- Ellipse branch (lines 634-661); axis lengths normalized to km
(NM times 1.852, M divided by 1000). -/
def processEllipse {A : Type} (f_alt g_alt : A) (idx : ℕ) (m : EllipseMatch) :
    Except GeoErr (NotamGeometryPart A) := do
  let center ← parse_latlon_pair m.center
  let major ← pyFloat m.major
  let minor ← pyFloat m.minor
  let major_km := if m.unit = "NM" then major * 1852 / 1000
    else if m.unit = "M" then major / 1000 else major
  let minor_km := if m.unit = "NM" then minor * 1852 / 1000
    else if m.unit = "M" then minor / 1000 else minor
  pure ⟨"ELLIPSE", .ellipse center major_km minor_km (natOfDigits m.azm.data),
    f_alt, g_alt, idx, m.raw⟩

/-- Arc branch (lines 664-695).  On the three possible captures of the
direction group, the source test `"CLOCKWISE" in d and "COUNTER" not in d
and "ANTI" not in d` equals `d = "CLOCKWISE"`. -/
def processArc {A : Type} (f_alt g_alt : A) (idx : ℕ) (m : ArcMatch) :
    Except GeoErr (NotamGeometryPart A) := do
  let startPt ← parse_latlon_pair m.startTok
  let radiusVal ← pyFloat m.radiusVal
  let centerPt ← parse_latlon_pair m.centerTok
  let endPt ← parse_latlon_pair m.endTok
  let radius_m := if m.unit = "KM" then radiusVal * 1000
    else if m.unit = "NM" then radiusVal * 1852 else radiusVal
  pure ⟨"ARC", .arc centerPt radius_m startPt endPt (m.direction = "CLOCKWISE"),
    f_alt, g_alt, idx, m.raw⟩

/-- Line-corridor branch (lines 698-721): width to km, points from the
block; the part is only built when at least two points were found. -/
def processLine {A : Type} (f_alt g_alt : A) (idx : ℕ) (m : LineMatch) :
    Except GeoErr (List (NotamGeometryPart A)) := do
  let half_width_val ← pyFloat m.width
  let half_width_km := if m.unit = "KM" then half_width_val
    else if m.unit = "NM" then half_width_val * 1852 / 1000
    else half_width_val / 1000
  if 2 ≤ (parse_multi_latlon_seq m.pointsBlock).length then
    pure [⟨"LINE_CORRIDOR",
      .corridor (parse_multi_latlon_seq m.pointsBlock) (half_width_km * 1000),
      f_alt, g_alt, idx, m.raw⟩]
  else
    pure []

/-- The `AREA:` chains of one subarea (lines 726-730): each trail through
`parse_multi_latlon_seq`, kept when at least 3 vertices result. -/
def areaChains (sub : Subarea) : List (List (ℚ × ℚ)) :=
  (sub.areas.map (fun t => parse_multi_latlon_seq t)).filter
    (fun c => decide (3 ≤ c.length))

/-- One subarea of `build_parts_from_E` (lines 588-760): the pattern
branches in source order, then the `AREA:` chains with the dense-scan
fallback (only when no other geometry matched), each chain through
`build_polygon`. -/
def processSubarea {A : Type} (sh : ShapelyModel) (f_alt g_alt : A) (idx : ℕ)
    (sub : Subarea) : Except GeoErr (List (NotamGeometryPart A)) := do
  let circleParts ← mapME (processCircle f_alt g_alt idx) sub.circles
  let sectorParts ← mapME (processSector f_alt g_alt idx) sub.sectors
  let ellipseParts ← mapME (processEllipse f_alt g_alt idx) sub.ellipses
  let arcParts ← mapME (processArc f_alt g_alt idx) sub.arcs
  let lineParts ← match sub.line with
    | some m => processLine f_alt g_alt idx m
    | none => pure []
  let localParts :=
    circleParts ++ sectorParts ++ ellipseParts ++ arcParts ++ lineParts
  let chains :=
    if (areaChains sub).isEmpty = true ∧
        3 ≤ (parse_multi_latlon_seq sub.raw).length ∧
        localParts.isEmpty = true then
      [parse_multi_latlon_seq sub.raw]
    else areaChains sub
  let polyParts ← mapME (fun c => do
    let ring ← build_polygon sh c
    pure (⟨"POLYGON", .polygon ring, f_alt, g_alt, idx, "AREA"⟩ :
      NotamGeometryPart A)) chains
  pure (localParts ++ polyParts)

/-- The subarea loop of `build_parts_from_E` with `enumerate(…, start=1)`. -/
def buildPartsAux {A : Type} (sh : ShapelyModel) (f_alt g_alt : A) :
    ℕ → List Subarea → Except GeoErr (List (NotamGeometryPart A))
  | _, [] => .ok []
  | idx, s :: rest => do
    let ps ← processSubarea sh f_alt g_alt idx s
    let more ← buildPartsAux sh f_alt g_alt (idx + 1) rest
    pure (ps ++ more)

/-- Model of `scripts/geo.py build_parts_from_E` (lines 579-762), over the
regex-match layer (`parse_subareas` plus the `finditer` captures) given as
`Subarea` records.  No branch is wrapped in a try/except: any failure in a
single match's geometry construction propagates out of the whole call. -/
def build_parts_from_E {A : Type} (sh : ShapelyModel) (subareas : List Subarea)
    (f_alt g_alt : A) : Except GeoErr (List (NotamGeometryPart A)) :=
  buildPartsAux sh f_alt g_alt 1 subareas

/-- The part kinds of a successful cascade run (empty for a failed one). -/
def kindsOf {A : Type} (r : Except GeoErr (List (NotamGeometryPart A))) :
    List String :=
  match r with
  | .ok ps => ps.map NotamGeometryPart.kind
  | .error _ => []

end ScriptsGeo

/-- A bind on a failed computation fails. -/
lemma exOk_bind_false_left {ε α β : Type} (x : Except ε α) (g : α → Except ε β)
    (h : exOk x = false) : exOk (x >>= g) = false := by
  cases x with
  | error e => rfl
  | ok a => simp [exOk] at h

/-- A bind fails when every successful scrutinee leads to failure. -/
lemma exOk_bind_false {ε α β : Type} (x : Except ε α) (g : α → Except ε β)
    (h : ∀ a, x = .ok a → exOk (g a) = false) : exOk (x >>= g) = false := by
  cases x with
  | error e => rfl
  | ok a => exact h a rfl

/-- A for-loop traversal fails when any single element fails. -/
lemma mapME_error {A B : Type} (f : A → Except GeoErr B) (l : List A) (x : A)
    (hx : x ∈ l) (hf : exOk (f x) = false) :
    exOk (ScriptsGeo.mapME f l) = false := by
  induction l with
  | nil => cases hx
  | cons a t ih =>
    rcases List.mem_cons.mp hx with rfl | hxt
    · show exOk ((f x) >>= fun y =>
        (ScriptsGeo.mapME f t) >>= fun ys => pure (y :: ys)) = false
      exact exOk_bind_false_left _ _ hf
    · show exOk ((f a) >>= fun y =>
        (ScriptsGeo.mapME f t) >>= fun ys => pure (y :: ys)) = false
      apply exOk_bind_false
      intro y _
      exact exOk_bind_false_left _ _ (ih hxt)

/-- A circle match whose distance text is unparseable fails the circle
branch (the radius conversion is its first step). -/
lemma processCircle_error {A : Type} (f_alt g_alt : A) (idx : ℕ)
    (c : ScriptsGeo.CircleMatch) (h : exOk (m_from_text c.dist) = false) :
    exOk (ScriptsGeo.processCircle f_alt g_alt idx c) = false := by
  show exOk ((m_from_text c.dist) >>= _) = false
  exact exOk_bind_false_left _ _ h

/-- A failing circle match fails its whole subarea. -/
lemma processSubarea_error {A : Type} (sh : ShapelyModel) (f_alt g_alt : A)
    (idx : ℕ) (sub : ScriptsGeo.Subarea) (c : ScriptsGeo.CircleMatch)
    (hc : c ∈ sub.circles) (h : exOk (m_from_text c.dist) = false) :
    exOk (ScriptsGeo.processSubarea sh f_alt g_alt idx sub) = false := by
  show exOk ((ScriptsGeo.mapME (ScriptsGeo.processCircle f_alt g_alt idx)
    sub.circles) >>= _) = false
  exact exOk_bind_false_left _ _
    (mapME_error _ _ c hc (processCircle_error f_alt g_alt idx c h))

/-- C2 (amended).  A geometry-construction failure for a single pattern
match inside `build_parts_from_E` is NOT caught per match: it propagates
out of the whole call, so the cascade returns an error and no parts at all
(the enclosing callers catch it only at whole-NOTAM granularity).  Stated
for a circle match whose radius text fails `m_from_text`. -/
theorem c2_cascade_error_propagates {A : Type} (sh : ShapelyModel)
    (subs : List ScriptsGeo.Subarea) (f_alt g_alt : A)
    (h : ∃ sub ∈ subs, ∃ c ∈ sub.circles, exOk (m_from_text c.dist) = false) :
    exOk (ScriptsGeo.build_parts_from_E sh subs f_alt g_alt) = false := by
  obtain ⟨sub, hsub, c, hc, hf⟩ := h
  show exOk (ScriptsGeo.buildPartsAux sh f_alt g_alt 1 subs) = false
  generalize 1 = idx
  induction subs generalizing idx with
  | nil => cases hsub
  | cons s rest ih =>
    rcases List.mem_cons.mp hsub with rfl | hrest
    · show exOk ((ScriptsGeo.processSubarea sh f_alt g_alt idx sub) >>= _) =
        false
      exact exOk_bind_false_left _ _
        (processSubarea_error sh f_alt g_alt idx sub c hc hf)
    · show exOk ((ScriptsGeo.processSubarea sh f_alt g_alt idx s) >>= _) =
        false
      apply exOk_bind_false
      intro ps _
      exact exOk_bind_false_left _ _ (ih hrest _)

/-- C2 counterexample.  A clause-E subarea with two circle matches — the
first with the unparseable radius text `..KM` (which `CIRCLE_RE`'s
`[0-9.]+` group can capture), the second well-formed — makes the whole
cascade return `InvalidDistance`, instead of skipping the first match and
returning the second circle; alone, the second match does produce its
circle part. -/
theorem c2_counterexample :
    ScriptsGeo.build_parts_from_E shTriv
      [⟨"WI CIRCLE RADIUS ..KM CENTRE 1234N 12345E. WI CIRCLE RADIUS 1KM CENTRE 1234N 12345E.",
        [⟨"..KM", "1234N 12345E", "WI CIRCLE RADIUS ..KM CENTRE 1234N 12345E."⟩,
         ⟨"1KM", "1234N 12345E", "WI CIRCLE RADIUS 1KM CENTRE 1234N 12345E."⟩],
        [], [], [], none, []⟩] (0 : ℕ) 0 =
      .error (.invalidDistance "..KM") ∧
    ScriptsGeo.kindsOf (ScriptsGeo.build_parts_from_E shTriv
      [⟨"WI CIRCLE RADIUS 1KM CENTRE 1234N 12345E.",
        [⟨"1KM", "1234N 12345E", "WI CIRCLE RADIUS 1KM CENTRE 1234N 12345E."⟩],
        [], [], [], none, []⟩] (0 : ℕ) 0) = ["CIRCLE"] := by
  constructor
  · decide
  · decide

/-- C2 witness: the amended theorem applied to a one-subarea list with a
bad-distance circle match. -/
theorem c2_witness :
    exOk (ScriptsGeo.build_parts_from_E shTriv
      [⟨"", [⟨"..KM", "1234N 12345E", ""⟩], [], [], [], none, []⟩]
      (0 : ℕ) 0) = false :=
  c2_cascade_error_propagates shTriv _ 0 0
    ⟨_, List.mem_cons_self _ _, _, List.mem_cons_self _ _, by decide⟩

namespace NotamMod

/-- The Q-clause area-of-effect dict `«lat, long, radius»`
(`_parser.py` lines 152-156 and 201-205). -/
structure AreaDict where
  lat : String
  long : String
  radius : ℕ
  deriving DecidableEq

/-- The `notam.py Notam` dataclass (lines 34-76), parameterized by the
opaque type `G` of derived GeoJSON geometry.  Every field defaults to
`none`, as in the Python dataclass. -/
structure Notam (G : Type) where
  full_text : Option String := none
  notam_id : Option String := none
  notam_type : Option String := none
  ref_notam_id : Option String := none
  fir : Option String := none
  notam_code : Option String := none
  traffic_type : Option (List String) := none
  purpose : Option (List String) := none
  scope : Option (List String) := none
  fl_lower : Option ℕ := none
  fl_upper : Option ℕ := none
  area : Option AreaDict := none
  location : Option (List String) := none
  valid_from : Option (ℕ × ℕ × ℕ × ℕ × ℕ) := none
  valid_till : Option (ℕ × ℕ × ℕ × ℕ × ℕ) := none
  schedule : Option String := none
  body : Option String := none
  limit_lower : Option String := none
  limit_upper : Option String := none
  indices_item_a : Option (ℕ × ℕ) := none
  indices_item_b : Option (ℕ × ℕ) := none
  indices_item_c : Option (ℕ × ℕ) := none
  indices_item_d : Option (ℕ × ℕ) := none
  indices_item_e : Option (ℕ × ℕ) := none
  indices_item_f : Option (ℕ × ℕ) := none
  indices_item_g : Option (ℕ × ℕ) := none
  geometry : Option G := none
  deriving DecidableEq

/-- The two error shapes raised by `Notam.from_str`: both are
`NotamParseError` instances in Python, distinguished by their message
(`"Corrupted NOTAM: …"` from the precheck at lines 112-117 versus
`"Failed to parse NOTAM"` from the grammar handler at lines 138-144). -/
inductive NotamErr
  | corruptedNotam (msg : String)
  | parseFailed (msg : String)
  deriving DecidableEq

/-- Python `str.rstrip()`. -/
def rstripChars (l : List Char) : List Char :=
  (l.reverse.dropWhile Char.isWhitespace).reverse

/-- Structural precheck of `Notam.from_str` (line 111):
`s.strip().startswith("(") and s.rstrip().endswith(")")`. -/
def precheck (s : String) : Bool :=
  decide ((stripChars s.data).head? = some '(') &&
    decide ((rstripChars s.data).getLast? = some ')')

/-- The inner try/except of `Notam.from_str` (notam.py lines 160-163): try
`unary_union(geoms)`; if it raises, fall back to
`GeometryCollection(geoms)` instead of letting the exception escape. -/
def mergedOf {P : Type} (union : List P → Except String P)
    (collection : List P → P) (parts : List P) : P :=
  match union parts with
  | .ok m => m
  | .error _ => collection parts

/-- The geometry-derivation stage of `Notam.from_str` (lines 146-167),
with its two-level exception structure.  The raisable external steps are
abstracted: `buildParts` is the `build_parts_from_E` call on the parsed
body and altitudes (lines 153-157; `parse_alt_text` itself never raises,
and the lazy imports are environmental), `union` is shapely
`unary_union`, `collection` the `GeometryCollection` constructor, and
`gmap` the GeoJSON `mapping` step.  An exception from `buildParts` or
`gmap` escapes to the outer handler, which sets `geometry` to `None`; an
exception from `union` is caught by the inner handler (lines 160-163) and
replaced by the collection of the un-unioned parts, which is then mapped
and stored.  With no parts, nothing is assigned. -/
def applyGeometry {G P : Type}
    (buildParts : Notam G → Except String (List P))
    (union : List P → Except String P) (collection : List P → P)
    (gmap : P → Except String G) (n : Notam G) : Notam G :=
  match buildParts n with
  | .error _ => { n with geometry := none }
  | .ok parts =>
    if parts.isEmpty then n
    else
      match gmap (mergedOf union collection parts) with
      | .ok g => { n with geometry := some g }
      | .error _ => { n with geometry := none }

/-- Model of `Notam.from_str` (lines 105-167): the structural precheck, then the
grammar visitor (abstracted as `grammarParse`, which populates the record),
then the best-effort geometry stage. -/
def from_str {G P : Type} (grammarParse : String → Except String (Notam G))
    (buildParts : Notam G → Except String (List P))
    (union : List P → Except String P) (collection : List P → P)
    (gmap : P → Except String G) (s : String) :
    Except NotamErr (Notam G) :=
  if precheck s = false then
    .error (.corruptedNotam
      "Corrupted NOTAM: missing opening or closing parenthesis")
  else
    match grammarParse s with
    | .error e => .error (.parseFailed ("Failed to parse NOTAM " ++ e))
    | .ok n => .ok (applyGeometry buildParts union collection gmap n)

end NotamMod

/-- Helper: after a passing precheck and a successful grammar parse,
`from_str` returns the record put through the geometry stage. -/
lemma from_str_ok {G P : Type}
    (grammarParse : String → Except String (NotamMod.Notam G))
    (buildParts : NotamMod.Notam G → Except String (List P))
    (union : List P → Except String P) (collection : List P → P)
    (gmap : P → Except String G) (s : String) (n : NotamMod.Notam G)
    (hpre : NotamMod.precheck s = true) (hg : grammarParse s = .ok n) :
    NotamMod.from_str grammarParse buildParts union collection gmap s =
      .ok (NotamMod.applyGeometry buildParts union collection gmap n) := by
  unfold NotamMod.from_str
  rw [hpre]
  simp only [Bool.true_eq_false, if_false, hg]

/-- Helper: the geometry stage only ever writes the `geometry` field. -/
lemma applyGeometry_fields {G P : Type}
    (buildParts : NotamMod.Notam G → Except String (List P))
    (union : List P → Except String P) (collection : List P → P)
    (gmap : P → Except String G) (n : NotamMod.Notam G) :
    NotamMod.applyGeometry buildParts union collection gmap n =
      { n with geometry :=
        (NotamMod.applyGeometry buildParts union collection gmap n).geometry } := by
  unfold NotamMod.applyGeometry
  cases hb : buildParts n with
  | error e => rfl
  | ok parts =>
    by_cases hp : parts.isEmpty = true
    · simp only [hp, if_true]
    · simp only [hp, if_false]
      cases hm : gmap (NotamMod.mergedOf union collection parts) with
      | ok g => rfl
      | error e => rfl

/-- Helper: when `unary_union` raises, the inner handler substitutes the
collection of the un-unioned parts. -/
lemma mergedOf_union_error {P : Type} (union : List P → Except String P)
    (collection : List P → P) (parts : List P) (e : String)
    (h : union parts = .error e) :
    NotamMod.mergedOf union collection parts = collection parts := by
  unfold NotamMod.mergedOf
  rw [h]

/-- C3 (confirmed).  Any input failing the parenthesis precheck makes
`Notam.from_str` fail with the dedicated `CorruptedNotam` error — before
and regardless of the grammar — and that error is distinct from the
generic grammar-failure error by construction. -/
theorem c3_precheck_corrupted {G P : Type}
    (grammarParse : String → Except String (NotamMod.Notam G))
    (buildParts : NotamMod.Notam G → Except String (List P))
    (union : List P → Except String P) (collection : List P → P)
    (gmap : P → Except String G) (s : String)
    (h : NotamMod.precheck s = false) :
    NotamMod.from_str grammarParse buildParts union collection gmap s =
      .error (.corruptedNotam
        "Corrupted NOTAM: missing opening or closing parenthesis") ∧
    (∀ msg, NotamMod.NotamErr.corruptedNotam
      "Corrupted NOTAM: missing opening or closing parenthesis" ≠
        NotamMod.NotamErr.parseFailed msg) := by
  constructor
  · unfold NotamMod.from_str
    rw [h]
    rfl
  · intro msg hcontra
    cases hcontra

/-- C3 witness: the concrete input `"(U1234/25 NOTAMN"` (missing the
closing parenthesis) fails with `CorruptedNotam`, whatever the grammar
would have said. -/
theorem c3_witness :
    NotamMod.from_str (G := Unit) (P := Unit) (fun _ => .ok {})
      (fun _ => .ok []) (fun _ => .ok ()) (fun _ => ()) (fun _ => .ok ())
      "(U1234/25 NOTAMN" =
      .error (.corruptedNotam
        "Corrupted NOTAM: missing opening or closing parenthesis") :=
  (c3_precheck_corrupted (fun _ => .ok {}) (fun _ => .ok [])
    (fun _ => .ok ()) (fun _ => ()) (fun _ => .ok ())
    "(U1234/25 NOTAMN" (by decide)).1

/-- C4 (amended).  Whatever the geometry stage does, every successful
`from_str` result agrees with the parsed record on all fields but
`geometry`.  An exception escaping the whole geometry block — from
`build_parts_from_E` or from the GeoJSON `mapping` step — degrades to
`geometry = None`.  But an exception inside `unary_union` alone is caught
by the inner handler of lines 160-163 and falls back to the
`GeometryCollection` of the un-unioned parts, whose mapping is stored as
the geometry — not `None`. -/
theorem c4_geometry_failure_degrades {G P : Type}
    (grammarParse : String → Except String (NotamMod.Notam G))
    (buildParts : NotamMod.Notam G → Except String (List P))
    (union : List P → Except String P) (collection : List P → P)
    (gmap : P → Except String G) (s : String) (n : NotamMod.Notam G)
    (hpre : NotamMod.precheck s = true) (hg : grammarParse s = .ok n) :
    (∀ m, NotamMod.from_str grammarParse buildParts union collection gmap s =
        .ok m → m = { n with geometry := m.geometry }) ∧
    (∀ e, buildParts n = .error e →
      NotamMod.from_str grammarParse buildParts union collection gmap s =
        .ok { n with geometry := none }) ∧
    (∀ parts, buildParts n = .ok parts → parts.isEmpty = false →
      (∀ e2, gmap (NotamMod.mergedOf union collection parts) = .error e2 →
        NotamMod.from_str grammarParse buildParts union collection gmap s =
          .ok { n with geometry := none }) ∧
      (∀ e g, union parts = .error e → gmap (collection parts) = .ok g →
        NotamMod.from_str grammarParse buildParts union collection gmap s =
          .ok { n with geometry := some g })) := by
  rw [from_str_ok grammarParse buildParts union collection gmap s n hpre hg]
  refine ⟨?_, ?_, ?_⟩
  · intro m hm
    have hme := Except.ok.inj hm
    rw [← hme]
    exact applyGeometry_fields buildParts union collection gmap n
  · intro e he
    unfold NotamMod.applyGeometry
    rw [he]
  · intro parts hparts hne
    constructor
    · intro e2 hmapfail
      unfold NotamMod.applyGeometry
      rw [hparts]
      show Except.ok (if parts.isEmpty = true then n
          else match gmap (NotamMod.mergedOf union collection parts) with
            | Except.ok g2 => { n with geometry := some g2 }
            | Except.error _ => { n with geometry := none }) =
        Except.ok { n with geometry := none }
      rw [hne, hmapfail]
      rfl
    · intro e g hunion hmapok
      unfold NotamMod.applyGeometry
      rw [hparts]
      show Except.ok (if parts.isEmpty = true then n
          else match gmap (NotamMod.mergedOf union collection parts) with
            | Except.ok g2 => { n with geometry := some g2 }
            | Except.error _ => { n with geometry := none }) =
        Except.ok { n with geometry := some g }
      rw [hne, mergedOf_union_error union collection parts e hunion, hmapok]
      rfl

/-- C4 counterexample.  With a successful grammar parse and two geometry
parts, a raising `unary_union` does NOT yield `geometry = None`: the inner
handler of notam.py lines 160-163 substitutes the collection of the parts,
whose mapping (here summing into 103) is stored as the geometry. -/
theorem c4_counterexample :
    NotamMod.from_str (G := ℕ) (P := ℕ)
      (fun _ => .ok { body := some "E" })
      (fun _ => .ok [1, 2])
      (fun _ => .error "unary_union raised")
      (fun parts => parts.foldl (fun a b => a + b) 100)
      (fun m => .ok m) "(A)" =
      .ok ({ body := some "E", geometry := some 103 } : NotamMod.Notam ℕ) ∧
    some 103 ≠ (none : Option ℕ) := by
  constructor
  · decide
  · decide

/-- C4 witness: the amended theorem applied concretely — a raising
`build_parts_from_E` degrades to `geometry = None` with the body intact,
and a raising `unary_union` (with mapping the identity and collection
summing into 103) stores the collection's mapping instead. -/
theorem c4_witness :
    NotamMod.from_str (G := ℕ) (P := ℕ) (fun _ => .ok { body := some "BODY" })
      (fun _ => .error "boom") (fun _ => .error "u") (fun _ => 0)
      (fun m => .ok m) "(A)" =
      .ok ({ body := some "BODY" } : NotamMod.Notam ℕ) ∧
    NotamMod.from_str (G := ℕ) (P := ℕ) (fun _ => .ok { body := some "BODY" })
      (fun _ => .ok [1, 2]) (fun _ => .error "u")
      (fun parts => parts.foldl (fun a b => a + b) 100) (fun m => .ok m)
      "(A)" =
      .ok ({ body := some "BODY", geometry := some 103 } :
        NotamMod.Notam ℕ) := by
  constructor
  · exact (c4_geometry_failure_degrades (fun _ => .ok { body := some "BODY" })
      (fun _ => .error "boom") (fun _ => .error "u") (fun _ => 0)
      (fun m => .ok m) "(A)" { body := some "BODY" } (by decide) rfl).2.1
      "boom" rfl
  · exact (((c4_geometry_failure_degrades
      (fun _ => .ok { body := some "BODY" }) (fun _ => .ok [1, 2])
      (fun _ => .error "u") (fun parts => parts.foldl (fun a b => a + b) 100)
      (fun m => .ok m) "(A)" { body := some "BODY" } (by decide) rfl).2.2
      [1, 2] rfl (by decide)).2 "u" 103 rfl (by decide))

namespace ParserMod

/-- The epoch pivot of `NotamParseVisitor.visit_datetime` (`_parser.py`
lines 261-263): `1900 + yy` if `yy > 80` else `2000 + yy`. -/
def pivotYear (yy : ℕ) : ℕ := if 80 < yy then 1900 + yy else 2000 + yy

/-- The grammar rule `datetime = int2 int2 int2 int2 int2` combined with
`visit_datetime` (lines 259-264): a 10-digit string split into five 2-digit
numbers, the year put through the epoch pivot.  (The `timeutils.datetime`
constructor validation is external library behaviour.) -/
def visit_datetime (s : String) : Option (ℕ × ℕ × ℕ × ℕ × ℕ) :=
  if s.data.length = 10 ∧ allDigits s.data = true then
    some (pivotYear (natOfDigits (s.data.take 2)),
      natOfDigits ((s.data.drop 2).take 2),
      natOfDigits ((s.data.drop 4).take 2),
      natOfDigits ((s.data.drop 6).take 2),
      natOfDigits ((s.data.drop 8).take 2))
  else none

/-- The `AREA_RE` regex of `_parser.py` (lines 6-8), identical to the
grammar token `area_of_effect` (line 45):
`^(\d«4»[NS])(\d«5»[EW])([0-9]«0,3»)$` — fixed-width groups, so matching
is deterministic.  Returns (lat token, long token, radius digit group). -/
def area_re_match (cs : List Char) :
    Option (List Char × List Char × List Char) :=
  match cs with
  | a :: b :: c :: d :: h1 :: e1 :: e2 :: e3 :: e4 :: e5 :: h2 :: rest =>
    if ([a, b, c, d]).all Char.isDigit = true ∧ (h1 = 'N' ∨ h1 = 'S') ∧
        ([e1, e2, e3, e4, e5]).all Char.isDigit = true ∧
        (h2 = 'E' ∨ h2 = 'W') ∧ rest.all Char.isDigit = true ∧
        rest.length ≤ 3 then
      some ([a, b, c, d, h1], [e1, e2, e3, e4, e5, h2], rest)
    else none
  | _ => none

/-- Model of `NotamParseVisitor.visit_area_of_effect` (`_parser.py` lines 197-208):
with a nonempty radius group the area dict is stored; with an empty radius
the `hasattr(self.tgt, "area")` guard is always true for the `Notam`
dataclass (the field exists with default `None`), so nothing is written
and the lat/long tokens are discarded. -/
def visit_area_of_effect {G : Type} (n : NotamMod.Notam G)
    (lat long radius : List Char) : NotamMod.Notam G :=
  if radius ≠ [] then
    { n with area := some ⟨String.mk lat, String.mk long, natOfDigits radius⟩ }
  else n

/-- Python `str.isdigit()`: nonempty and all digits. -/
def pyIsdigit (l : List Char) : Bool := !l.isEmpty && l.all Char.isDigit

/-- Model of `NotamParseVisitor.visit_q_clause` (`_parser.py` lines 134-162) after
the `split("/")`: fewer than 7 parts raise `ParseQClauseError`; otherwise
`fir`, `fl_lower`, `fl_upper` are assigned, and the optional eighth part is
re-matched against `AREA_RE` — with an empty radius group the
`hasattr` guards again make every branch a no-op on `area`. -/
def visit_q_clause_parts {G : Type} (n : NotamMod.Notam G)
    (parts : List (List Char)) : Except String (NotamMod.Notam G) :=
  match parts with
  | fir :: _code :: _traffic :: _purpose :: _scope :: lower :: upper :: rest =>
    let n1 : NotamMod.Notam G :=
      { n with
        fir := some (String.mk (fir.take 4)),
        fl_lower := if pyIsdigit lower then some (natOfDigits lower) else none,
        fl_upper := if pyIsdigit upper then some (natOfDigits upper) else none }
    match rest.head? with
    | some a =>
      if a ≠ [] then
        match area_re_match a with
        | some (la, lo, r) =>
          if r ≠ [] then
            .ok { n1 with
              area := some ⟨String.mk la, String.mk lo, natOfDigits r⟩ }
          else .ok n1
        | none => .ok n1
      else .ok n1
    | none => .ok n1
  | _ => .error "Malformed Q clause"

/-- One `foldr` step of Python `str.split("/")` (which keeps empties). -/
def splitSlashAux (c : Char) (acc : List (List Char)) : List (List Char) :=
  match acc with
  | [] => if c = '/' then [[], []] else [[c]]
  | w :: ws => if c = '/' then [] :: w :: ws else (c :: w) :: ws

/-- Python `str.split("/")`. -/
def splitSlash (cs : List Char) : List (List Char) := cs.foldr splitSlashAux [[]]

/-- The `Q)` tag strip of `visit_q_clause` (line 137):
`text[2:].lstrip() if text.startswith("Q)") else text`. -/
def qBody (cs : List Char) : List Char :=
  if leadsWith ['Q', ')'] cs then (cs.drop 2).dropWhile Char.isWhitespace
  else cs

/-- Model of `NotamParseVisitor.visit_q_clause` on the raw clause text. -/
def visit_q_clause {G : Type} (n : NotamMod.Notam G) (text : String) :
    Except String (NotamMod.Notam G) :=
  visit_q_clause_parts n (splitSlash (qBody text.data))

end ParserMod

/-- C7 (confirmed).  A 10-digit B/C-clause timestamp decodes its leading
2-digit year through the epoch pivot (`1900 + yy` when `yy > 80`, else
`2000 + yy`); concretely `2509050601` decodes to 2025-09-05 06:01 and the
2-digit year 85 to 1985. -/
theorem c7_datetime_pivot :
    (∀ (s : String) (y1 y2 : Char) (rest : List Char),
      s.data = y1 :: y2 :: rest → rest.length = 8 →
      allDigits s.data = true →
      ParserMod.visit_datetime s = some (
        (if 80 < 10 * charVal y1 + charVal y2 then
          1900 + (10 * charVal y1 + charVal y2)
         else 2000 + (10 * charVal y1 + charVal y2)),
        natOfDigits (rest.take 2), natOfDigits ((rest.drop 2).take 2),
        natOfDigits ((rest.drop 4).take 2),
        natOfDigits ((rest.drop 6).take 2))) ∧
    ParserMod.visit_datetime "2509050601" = some (2025, 9, 5, 6, 1) ∧
    ParserMod.pivotYear 85 = 1985 ∧ ParserMod.pivotYear 25 = 2025 := by
  refine ⟨?_, by decide, by decide, by decide⟩
  intro s y1 y2 rest hdata hlen hdig
  unfold ParserMod.visit_datetime
  rw [hdata]
  rw [if_pos ⟨by simp [hlen], by rw [← hdata]; exact hdig⟩]
  have h2 : natOfDigits ((y1 :: y2 :: rest).take 2) =
      10 * charVal y1 + charVal y2 := by
    simp [natOfDigits]
    try omega
  rw [h2]
  rfl

/-- C7 witness: the general pivot statement applied to `2509050601`. -/
theorem c7_witness :
    ParserMod.visit_datetime "2509050601" = some (
      (if 80 < 10 * charVal '2' + charVal '5' then
        1900 + (10 * charVal '2' + charVal '5')
       else 2000 + (10 * charVal '2' + charVal '5')),
      natOfDigits (("09050601".data).take 2),
      natOfDigits (("09050601".data).drop 2 |>.take 2),
      natOfDigits (("09050601".data).drop 4 |>.take 2),
      natOfDigits (("09050601".data).drop 6 |>.take 2)) :=
  c7_datetime_pivot.1 "2509050601" '2' '5' "09050601".data (by decide)
    (by decide) (by decide)

/-- C10 (confirmed).  A Q-clause area-of-effect token with an empty radius
digit group is accepted by the token regex, and both visitor passes —
`visit_area_of_effect` (child) then `visit_q_clause` (parent, here after
the `split("/")`) — leave the record's `area` field `None`: the lat/long
tokens are discarded rather than stored without a radius. -/
theorem c10_area_empty_radius {G : Type} (n : NotamMod.Notam G)
    (a b c d h1 e1 e2 e3 e4 e5 h2 : Char)
    (hd1 : ([a, b, c, d]).all Char.isDigit = true) (hh1 : h1 = 'N' ∨ h1 = 'S')
    (hd2 : ([e1, e2, e3, e4, e5]).all Char.isDigit = true)
    (hh2 : h2 = 'E' ∨ h2 = 'W') (harea : n.area = none) :
    ParserMod.area_re_match [a, b, c, d, h1, e1, e2, e3, e4, e5, h2] =
      some ([a, b, c, d, h1], [e1, e2, e3, e4, e5, h2], []) ∧
    ParserMod.visit_area_of_effect n [a, b, c, d, h1]
      [e1, e2, e3, e4, e5, h2] [] = n ∧
    (∀ (p1 p2 p3 p4 p5 lower upper : List Char) (m : NotamMod.Notam G),
      ParserMod.visit_q_clause_parts
        (ParserMod.visit_area_of_effect n [a, b, c, d, h1]
          [e1, e2, e3, e4, e5, h2] [])
        [p1, p2, p3, p4, p5, lower, upper,
          [a, b, c, d, h1, e1, e2, e3, e4, e5, h2]] = .ok m →
      m.area = none) := by
  have hmatch : ParserMod.area_re_match
      [a, b, c, d, h1, e1, e2, e3, e4, e5, h2] =
      some ([a, b, c, d, h1], [e1, e2, e3, e4, e5, h2], []) := by
    show (if ([a, b, c, d]).all Char.isDigit = true ∧ (h1 = 'N' ∨ h1 = 'S') ∧
        ([e1, e2, e3, e4, e5]).all Char.isDigit = true ∧
        (h2 = 'E' ∨ h2 = 'W') ∧ ([] : List Char).all Char.isDigit = true ∧
        ([] : List Char).length ≤ 3 then
        some ([a, b, c, d, h1], [e1, e2, e3, e4, e5, h2], ([] : List Char))
      else none) =
      some ([a, b, c, d, h1], [e1, e2, e3, e4, e5, h2], [])
    rw [if_pos ⟨hd1, hh1, hd2, hh2, rfl, by simp⟩]
  have hvisit : ParserMod.visit_area_of_effect n [a, b, c, d, h1]
      [e1, e2, e3, e4, e5, h2] [] = n := by
    unfold ParserMod.visit_area_of_effect
    rw [if_neg (by simp)]
  refine ⟨hmatch, hvisit, ?_⟩
  intro p1 p2 p3 p4 p5 lower upper m hm
  rw [hvisit] at hm
  unfold ParserMod.visit_q_clause_parts at hm
  simp only [List.head?_cons] at hm
  rw [if_pos (by simp), hmatch] at hm
  have hm2 : Except.ok ({ n with
      fir := some (String.mk (p1.take 4)),
      fl_lower :=
        if ParserMod.pyIsdigit lower = true then some (natOfDigits lower)
        else none,
      fl_upper :=
        if ParserMod.pyIsdigit upper = true then some (natOfDigits upper)
        else none } : NotamMod.Notam G) = Except.ok m := hm
  have hmn := Except.ok.inj hm2
  rw [← hmn]
  exact harea

/-- C10 witness: the theorem applied to the token `5850N03021E` (from the
end-to-end scenario Q clause) on a fresh record. -/
theorem c10_witness :
    ParserMod.area_re_match "5850N03021E".data =
      some ("5850N".data, "03021E".data, []) ∧
    ({ fir := some "ULLL", fl_lower := some 0, fl_upper := some 50 } :
      NotamMod.Notam Unit).area = none := by
  have h := c10_area_empty_radius (G := Unit) {} '5' '8' '5' '0' 'N' '0' '3'
    '0' '2' '1' 'E' (by decide) (Or.inl rfl) (by decide) (Or.inl rfl) rfl
  exact ⟨h.1, h.2.2 "ULLL".data "QRTCA".data "IV".data "BO".data "W".data
    "000".data "050".data _ (by decide)⟩

end Notams
